import Mathlib

/-!
Verification development for the wizard execution engine of the
multi-agent federal form automation system
(`mcp-servers/federalrunner-mcp/src/playwright_client.py`).

The engine is embedded shallowly: every browser primitive the Python code
awaits (navigation, click, fill, select, screenshot, ...) becomes an
`Action`; a `World` decides, per call position, whether the primitive
succeeds or raises, and supplies page content for extraction.  The engine
itself is a pure state-passing function over `EngineSt` (the interaction
trace, the screenshot list, the `pages_completed` counter and the
browser-handle flags of the client object), returning the same result
record the Python function returns.
-/

namespace FormEngine

/-- Types of selectors used to locate elements (`models.SelectorType`). -/
inductive SelectorType where
  | text
  | id
  | css
  | auto
  deriving DecidableEq

/-- Types of form fields in wizards (`models.FieldType`). -/
inductive FieldType where
  | text
  | number
  | radio
  | select
  | typeahead
  | checkbox
  | group
  | textarea
  | search
  deriving DecidableEq

/-- Methods for interacting with form fields (`models.InteractionType`). -/
inductive InteractionType where
  | fill
  | click
  | select
  | javascript_click
  | fill_enter
  deriving DecidableEq

/-- A Python value passed as a field value.  `prim s` is any scalar whose
`str()` rendering is `s`; `vlist` is a Python list (group items);
`vdict` is a Python dict.  The `str()` rendering of non-scalar values is
abstracted to a fixed tag: no modelled code path depends on it. -/
inductive Value where
  | prim (s : String)
  | vlist (items : List Value)
  | vdict (entries : List (String × Value))

/-- Python `str(value)`. -/
def Value.toStr : Value → String
  | Value.prim s => s
  | Value.vlist _ => "<list>"
  | Value.vdict _ => "<dict>"

/-- A raised Python exception: `ty` is `type(e).__name__`, `msg` is `str(e)`. -/
structure PyErr where
  ty : String
  msg : String
  deriving DecidableEq

/-- Python `ValueError(msg)`. -/
def valueError (msg : String) : PyErr :=
  { ty := "ValueError", msg := msg }

/-- Python `item_data.get(key)`: dict lookup; raises `AttributeError` when the
item is not a dict (Python calls `.get` on whatever the list holds). -/
def dictGet : Value → String → Except PyErr (Option Value)
  | Value.vdict entries, k =>
      Except.ok ((entries.find? (fun p => p.1 == k)).map Prod.snd)
  | _, _ =>
      Except.error { ty := "AttributeError", msg := "object has no attribute get" }

/-- Structure for a sub-field within a grouped field (`models.SubFieldStructure`). -/
structure SubField where
  field_id : String
  selector : String
  interaction : InteractionType

/-- Structure for a single form field (`models.FieldStructure`).  Only the
attributes the execution engine reads are embedded. -/
structure FieldStructure where
  field_id : String
  selector : String
  field_type : FieldType
  interaction : InteractionType
  required : Bool
  sub_fields : List SubField
  add_button_selector : Option String

/-- Continue/next button of a page (`models.ContinueButton`). -/
structure ContinueButton where
  selector : String
  selector_type : SelectorType

/-- Action used to start the wizard (`models.StartAction`). -/
structure StartAction where
  selector : String
  selector_type : SelectorType

/-- One page of the wizard (`models.PageStructure`). -/
structure PageStructure where
  page_number : Nat
  page_title : String
  fields : List FieldStructure
  continue_button : ContinueButton

/-- Complete wizard structure (`models.WizardStructure`). -/
structure WizardStructure where
  wizard_id : String
  url : String
  total_pages : Nat
  start_action : Option StartAction
  pages : List PageStructure

/-- The ephemeral `field_values` map: selector → value. -/
def FieldValues := String → Option Value

/-- The engine configuration attributes the modelled code reads
(`FederalRunnerConfig`). -/
structure Config where
  headless : Bool
  saveScreenshots : Bool

/-- Every awaited browser primitive the engine performs, in the order the
Python code performs them, becomes one `Action` in the trace. -/
inductive Action where
  | startPlaywright
  | launchBrowser (headless : Bool)
  | newContext
  | newPage
  | goto (url : String) (timeoutMs : Nat)
  | waitTimeout (ms : Nat)
  | waitLoadState
  | clickSel (selector : String)
  | clickText (text : String)
  | fillSel (selector : String) (value : String)
  | pressKey (selector : String) (key : String)
  | evalClick (selector : String)
  | selectValue (selector : String) (value : String) (timeoutMs : Nat)
  | selectLabel (selector : String) (label : String) (timeoutMs : Nat)
  | screenshot (label : String)
  | saveShotToDisk (label : String)
  | getTitle
  | getInnerText (selector : String)
  | closeBrowser
  | stopPlaywright
  deriving DecidableEq

/-- The environment of one execution: `outcome n a` is the exception (if
any) raised by the `n`-th primitive call when that call is `a`; `shot n`
is the base64 screenshot data captured by a screenshot at position `n`;
the remaining fields are the terminal page snapshot. -/
structure World where
  outcome : Nat → Action → Option PyErr
  shot : Nat → String
  pageUrl : String
  pageTitle : String
  bodyText : String

/-- The browser handles held by the client object
(`self.playwright / self.browser / self.context / self.page`):
`true` means the handle is set (not `None`). -/
structure Client where
  playwrightOpen : Bool
  browserOpen : Bool
  contextOpen : Bool
  pageOpen : Bool
  deriving DecidableEq

/-- All four handles released. -/
def closedClient : Client :=
  { playwrightOpen := false, browserOpen := false, contextOpen := false, pageOpen := false }

/-- Engine state threaded through one execution: the world-interaction
trace, the client's handles, and the two locals of
`execute_wizard_atomically` (`screenshots`, `pages_completed`). -/
structure EngineSt where
  client : Client
  trace : List Action
  screenshots : List String
  pagesCompleted : Nat

/-- Perform one primitive: record it in the trace and consult the world
for success or exception. -/
def act (w : World) (a : Action) (s : EngineSt) : EngineSt × Except PyErr Unit :=
  match w.outcome s.trace.length a with
  | none => ({ s with trace := s.trace ++ [a] }, Except.ok ())
  | some e => ({ s with trace := s.trace ++ [a] }, Except.error e)

/-- Sequencing with exception propagation (Python statement sequencing:
an uncaught exception aborts the rest of the block). -/
def bindE {α β : Type} (r : EngineSt × Except PyErr α)
    (f : α → EngineSt → EngineSt × Except PyErr β) : EngineSt × Except PyErr β :=
  match r with
  | (s, Except.ok a) => f a s
  | (s, Except.error e) => (s, Except.error e)

/-- Message of the `ValueError` raised for a missing required field
(playwright_client.py lines 163-167). -/
def missingRequiredMsg (field_id selector : String) : String :=
  "Missing required field: " ++ field_id ++ ". Selector: " ++ selector ++
    ". Check that user_data includes this field_id."

/-- Message of the `ValueError` raised when a repeatable field lacks
`add_button_selector` (line 329). -/
def missingAddBtnMsg (field_id : String) : String :=
  "Repeatable field \x27" ++ field_id ++ "\x27 is missing add_button_selector"

/-- Message of the `ValueError` raised when saving a group item fails
(line 369); `n` is the 1-based item number. -/
def saveErrMsg (n : Nat) (field_id : String) : String :=
  "Could not save item " ++ toString n ++ " for field \x27" ++ field_id ++ "\x27"

/-- Message of the `ValueError` wrapping a field-interaction failure
(lines 460-464). -/
def fillErrMsg (field_id selector errMsg : String) : String :=
  "Failed to fill field \x27" ++ field_id ++ "\x27 (selector: " ++ selector ++
    "). Error: " ++ errMsg ++ ". Field may not be visible or selector may be incorrect."

/-- Message of the `ValueError` raised when the continue button cannot be
clicked (lines 491-494). -/
def continueErrMsg (selector : String) : String :=
  "Failed to click continue button (selector: " ++ selector ++
    "). Button may not be visible or selector may be incorrect."

/-- Message of the `ValueError` raised when the start action fails
(lines 619-622). -/
def startErrMsg (selector : String) : String :=
  "Failed to execute start action (selector: " ++ selector ++
    "). Start button may not be visible or selector may be incorrect."

/-- Python `value_str.replace("'", "’")`: every ASCII apostrophe replaced by the
Unicode right single quotation mark.  Because the pattern is a single
character, Python `str.replace` is exactly a character map. -/
def toUnicodeApos (s : String) : String :=
  String.mk (s.data.map fun ch => if ch = '\x27' then '’' else ch)

/-- Embedding of `_launch_browser` (lines 249-291): start playwright, launch the
browser, create context and page, setting each handle as soon as its
creation succeeds. -/
def launchBrowserFn (w : World) (cfg : Config) (s : EngineSt) : EngineSt × Except PyErr Unit :=
  bindE (act w Action.startPlaywright s) fun _ s1 =>
  bindE (act w (Action.launchBrowser cfg.headless)
      { s1 with client := { s1.client with playwrightOpen := true } }) fun _ s2 =>
  bindE (act w Action.newContext
      { s2 with client := { s2.client with browserOpen := true } }) fun _ s3 =>
  bindE (act w Action.newPage
      { s3 with client := { s3.client with contextOpen := true } }) fun _ s4 =>
  ({ s4 with client := { s4.client with pageOpen := true } }, Except.ok ())

/-- One navigation attempt (lines 118-126): a retry attempt first waits
the fixed 2s delay, then everything is one `goto` with the 20s
per-attempt timeout. -/
def navAttemptStep (w : World) (url : String) (first : Bool) (s : EngineSt) :
    EngineSt × Except PyErr Unit :=
  if first then act w (Action.goto url 20000) s
  else
    bindE (act w (Action.waitTimeout 2000) s) fun _ s1 =>
    act w (Action.goto url 20000) s1

/-- The navigation retry loop (lines 116-138): `remaining` counts the
retries still allowed after the current attempt; on the last attempt the
underlying navigation error is re-raised. -/
def navLoop (w : World) (url : String) (first : Bool) :
    Nat → EngineSt → EngineSt × Except PyErr Unit
  | remaining, s =>
    match navAttemptStep w url first s with
    | (s1, Except.ok _) => (s1, Except.ok ())
    | (s1, Except.error e) =>
      match remaining with
      | 0 => (s1, Except.error e)
      | Nat.succ r => navLoop w url false r s1

/-- Navigation with retry: `max_retries = 4`, hence 5 total attempts. -/
def navRetry (w : World) (url : String) (s : EngineSt) : EngineSt × Except PyErr Unit :=
  navLoop w url true 4 s

/-- Embedding of `_take_screenshot` (lines 496-543): capture, optionally persist to
disk, and return the base64 data; any failure is swallowed and the empty
placeholder string is returned instead. -/
def takeScreenshot (w : World) (cfg : Config) (label : String) (s : EngineSt) :
    EngineSt × String :=
  match act w (Action.screenshot label) s with
  | (s1, Except.error _) => (s1, "")
  | (s1, Except.ok _) =>
    let data := w.shot s.trace.length
    if cfg.saveScreenshots then
      match act w (Action.saveShotToDisk label) s1 with
      | (s2, Except.error _) => (s2, "")
      | (s2, Except.ok _) => (s2, data)
    else (s1, data)

/-- The result payload of `_extract_results`: either the generic snapshot
(URL, title, text bounded to 2000 characters) or the degraded
error-describing dict. -/
inductive ExtractedResults where
  | ok (pageUrl pageTitle bodyText : String)
  | degraded (errorDetails : String)
  deriving DecidableEq

/-- Embedding of `_extract_results` (lines 545-592): read URL (pure), then title and
body text; on any failure return the degraded payload instead of raising. -/
def extractResults (w : World) (s : EngineSt) : EngineSt × ExtractedResults :=
  match act w Action.getTitle s with
  | (s1, Except.error e) => (s1, ExtractedResults.degraded e.msg)
  | (s1, Except.ok _) =>
    match act w (Action.getInnerText "body") s1 with
    | (s2, Except.error e) => (s2, ExtractedResults.degraded e.msg)
    | (s2, Except.ok _) =>
      (s2, ExtractedResults.ok w.pageUrl w.pageTitle (w.bodyText.take 2000))

/-- One dropdown-selection strategy: by option value or by option label. -/
inductive SelectStrategy where
  | byValue (v : String)
  | byLabel (l : String)
  deriving DecidableEq

/-- The primitive a strategy performs; each uses the optimized 5-second
per-strategy timeout (line 411). -/
def strategyAction (selector : String) : SelectStrategy → Action
  | SelectStrategy.byValue v => Action.selectValue selector v 5000
  | SelectStrategy.byLabel l => Action.selectLabel selector l 5000

/-- The ordered strategy table of the SELECT branch (lines 420-425). -/
def selectStrategyList (value_str : String) : List SelectStrategy :=
  [SelectStrategy.byValue value_str,
   SelectStrategy.byValue (toUnicodeApos value_str),
   SelectStrategy.byLabel value_str,
   SelectStrategy.byLabel (toUnicodeApos value_str)]

/-- The strategy loop (lines 427-453): first success short-circuits;
when the list is exhausted the last error is raised (`raise last_error`;
if no strategy ever ran, Python would raise `None`, modelled as a
`TypeError`). -/
def runSelectStrategies (w : World) (selector : String) :
    List SelectStrategy → Option PyErr → EngineSt → EngineSt × Except PyErr Unit
  | [], lastErr, s =>
    match lastErr with
    | some e => (s, Except.error e)
    | none => (s, Except.error { ty := "TypeError", msg := "exceptions must derive from BaseException" })
  | strat :: rest, _, s =>
    match act w (strategyAction selector strat) s with
    | (s1, Except.ok _) => (s1, Except.ok ())
    | (s1, Except.error e) => runSelectStrategies w selector rest (some e) s1

/-- The SELECT interaction of `_fill_field` (lines 397-453). -/
def selectStrategies (w : World) (selector value_str : String) (s : EngineSt) :
    EngineSt × Except PyErr Unit :=
  runSelectStrategies w selector (selectStrategyList value_str) none s

/-- Fill one sub-field of a group item (lines 335-357): a missing value
only logs a warning; `fill` sub-fields use `page.fill`; `select`
sub-fields try the given value then the Unicode-apostrophe variant, each
with the 5s timeout; other interaction kinds only log a warning. -/
def fillOneSubField (w : World) (item : Value) (sf : SubField) (s : EngineSt) :
    EngineSt × Except PyErr Unit :=
  match dictGet item sf.field_id with
  | Except.error e => (s, Except.error e)
  | Except.ok none => (s, Except.ok ())
  | Except.ok (some v) =>
    match sf.interaction with
    | InteractionType.fill => act w (Action.fillSel sf.selector v.toStr) s
    | InteractionType.select =>
      match act w (Action.selectValue sf.selector v.toStr 5000) s with
      | (s1, Except.ok _) => (s1, Except.ok ())
      | (s1, Except.error _) =>
        act w (Action.selectValue sf.selector (toUnicodeApos v.toStr) 5000) s1
    | _ => (s, Except.ok ())

/-- Fill every declared sub-field of a group item in order. -/
def fillSubFieldsLoop (w : World) (item : Value) :
    List SubField → EngineSt → EngineSt × Except PyErr Unit
  | [], s => (s, Except.ok ())
  | sf :: rest, s =>
    bindE (fillOneSubField w item sf s) fun _ s1 =>
    fillSubFieldsLoop w item rest s1

/-- The save step of a group item (lines 362-369): click the text-matched
"Save" control and wait; on failure raise a `ValueError` naming the item
number and field. -/
def clickSaveStep (w : World) (field_id : String) (itemNumber : Nat) (s : EngineSt) :
    EngineSt × Except PyErr Unit :=
  match bindE (act w (Action.clickText "Save") s) (fun _ s1 =>
      act w (Action.waitTimeout 500) s1) with
  | (s1, Except.ok _) => (s1, Except.ok ())
  | (s1, Except.error _) =>
    (s1, Except.error (valueError (saveErrMsg itemNumber field_id)))

/-- Process one group item (lines 323-369): require `add_button_selector`
(Python truthiness: `None` and the empty string both fail the check),
click it, wait for the form, fill the sub-fields, then save. -/
def fillGroupItem (w : World) (field : FieldStructure) (item : Value) (index : Nat)
    (s : EngineSt) : EngineSt × Except PyErr Unit :=
  match field.add_button_selector with
  | none => (s, Except.error (valueError (missingAddBtnMsg field.field_id)))
  | some ab =>
    if ab = "" then (s, Except.error (valueError (missingAddBtnMsg field.field_id)))
    else
      bindE (act w (Action.clickSel ab) s) fun _ s1 =>
      bindE (act w (Action.waitTimeout 500) s1) fun _ s2 =>
      bindE (fillSubFieldsLoop w item field.sub_fields s2) fun _ s3 =>
      clickSaveStep w field.field_id (index + 1) s3

/-- Process every item of a non-empty group list in order. -/
def fillGroupLoop (w : World) (field : FieldStructure) :
    List Value → Nat → EngineSt → EngineSt × Except PyErr Unit
  | [], _, s => (s, Except.ok ())
  | item :: rest, index, s =>
    bindE (fillGroupItem w field item index s) fun _ s1 =>
    fillGroupLoop w field rest (index + 1) s1

/-- The scalar dispatch of `_fill_field` before error wrapping
(lines 375-453). -/
def fillScalarInner (w : World) (field : FieldStructure) (value : Value) (s : EngineSt) :
    EngineSt × Except PyErr Unit :=
  match field.interaction with
  | InteractionType.fill => act w (Action.fillSel field.selector value.toStr) s
  | InteractionType.fill_enter =>
    bindE (act w (Action.fillSel field.selector value.toStr) s) fun _ s1 =>
    bindE (act w (Action.pressKey field.selector "Enter") s1) fun _ s2 =>
    act w (Action.waitTimeout 500) s2
  | InteractionType.click => act w (Action.clickSel field.selector) s
  | InteractionType.javascript_click => act w (Action.evalClick field.selector) s
  | InteractionType.select => selectStrategies w field.selector value.toStr s

/-- The scalar path of `_fill_field` (lines 374-464): any exception in the
dispatch is wrapped into a `ValueError` naming field and selector. -/
def fillScalar (w : World) (field : FieldStructure) (value : Value) (s : EngineSt) :
    EngineSt × Except PyErr Unit :=
  match fillScalarInner w field value s with
  | (s1, Except.ok _) => (s1, Except.ok ())
  | (s1, Except.error e) =>
    (s1, Except.error (valueError (fillErrMsg field.field_id field.selector e.msg)))

/-- Embedding of `_fill_field` (lines 293-464): the group add/fill/save machinery runs
only when the field type is `group` AND the value is a list; an empty
list performs no interaction at all; everything else takes the scalar
dispatch. -/
def fillField (w : World) (field : FieldStructure) (value : Value) (s : EngineSt) :
    EngineSt × Except PyErr Unit :=
  match value with
  | Value.vlist items =>
    if field.field_type = FieldType.group then
      if items.length = 0 then (s, Except.ok ())
      else fillGroupLoop w field items 0 s
    else fillScalar w field value s
  | _ => fillScalar w field value s

/-- The field loop of one page (lines 156-172): look the value up by
selector; a required field without a value raises immediately; a field
with a value is filled and followed by the 300ms pause. -/
def fillPageFields (w : World) (fv : FieldValues) :
    List FieldStructure → EngineSt → EngineSt × Except PyErr Unit
  | [], s => (s, Except.ok ())
  | field :: rest, s =>
    match fv field.selector with
    | none =>
      if field.required then
        (s, Except.error (valueError (missingRequiredMsg field.field_id field.selector)))
      else fillPageFields w fv rest s
    | some v =>
      bindE (fillField w field v s) fun _ s1 =>
      bindE (act w (Action.waitTimeout 300) s1) fun _ s2 =>
      fillPageFields w fv rest s2

/-- Click dispatch shared by `_click_continue` and `_execute_start_action`
(text match, id with `#` normalisation, or CSS). -/
def clickByType (w : World) (selector : String) (st : SelectorType) (s : EngineSt) :
    EngineSt × Except PyErr Unit :=
  match st with
  | SelectorType.text => act w (Action.clickText selector) s
  | SelectorType.id =>
    act w (Action.clickSel (if selector.startsWith "#" then selector else "#" ++ selector)) s
  | _ => act w (Action.clickSel selector) s

/-- Embedding of `_click_continue` (lines 466-494). -/
def clickContinue (w : World) (cb : ContinueButton) (s : EngineSt) :
    EngineSt × Except PyErr Unit :=
  match clickByType w cb.selector cb.selector_type s with
  | (s1, Except.ok _) => (s1, Except.ok ())
  | (s1, Except.error _) => (s1, Except.error (valueError (continueErrMsg cb.selector)))

/-- Embedding of `_execute_start_action` (lines 594-622). -/
def execStartAction (w : World) (sa : StartAction) (s : EngineSt) :
    EngineSt × Except PyErr Unit :=
  match clickByType w sa.selector sa.selector_type s with
  | (s1, Except.ok _) => (s1, Except.ok ())
  | (s1, Except.error _) => (s1, Except.error (valueError (startErrMsg sa.selector)))

/-- The optional start action step (lines 144-149). -/
def startActionStep (w : World) (cfg : Config) :
    Option StartAction → EngineSt → EngineSt × Except PyErr Unit
  | none, s => (s, Except.ok ())
  | some sa, s =>
    bindE (execStartAction w sa s) fun _ s1 =>
    bindE (act w Action.waitLoadState s1) fun _ s2 =>
    bindE (act w (Action.waitTimeout 1000) s2) fun _ s3 =>
    let pr := takeScreenshot w cfg "after_start_action" s3
    ({ pr.1 with screenshots := pr.1.screenshots ++ [pr.2] }, Except.ok ())

/-- One iteration of the page loop before the increment (lines 152-182):
fill the fields, capture the audit screenshot, click continue, wait for
network idle and the settle delay. -/
def runPage (w : World) (cfg : Config) (fv : FieldValues) (p : PageStructure)
    (s : EngineSt) : EngineSt × Except PyErr Unit :=
  bindE (fillPageFields w fv p.fields s) fun _ s1 =>
  let pr := takeScreenshot w cfg ("page_" ++ toString p.page_number ++ "_filled") s1
  let s2 := { pr.1 with screenshots := pr.1.screenshots ++ [pr.2] }
  bindE (clickContinue w p.continue_button s2) fun _ s3 =>
  bindE (act w Action.waitLoadState s3) fun _ s4 =>
  act w (Action.waitTimeout 1500) s4

/-- The page loop (lines 152-184): `pages_completed += 1` happens only
after the whole page iteration — continue click included — succeeded. -/
def pageLoop (w : World) (cfg : Config) (fv : FieldValues) :
    List PageStructure → EngineSt → EngineSt × Except PyErr Unit
  | [], s => (s, Except.ok ())
  | p :: rest, s =>
    bindE (runPage w cfg fv p s) fun _ s1 =>
    pageLoop w cfg fv rest { s1 with pagesCompleted := s1.pagesCompleted + 1 }

/-- The run from after successful navigation to extraction
(lines 140-191): settle wait, initial screenshot, optional start action,
page loop, final screenshot, extraction.  Returns the extracted results
and the final screenshot (the success branch needs the latter for the
reduced headless payload). -/
def afterNav (w : World) (cfg : Config) (wiz : WizardStructure) (fv : FieldValues)
    (s : EngineSt) : EngineSt × Except PyErr (ExtractedResults × String) :=
  bindE (act w (Action.waitTimeout 1000) s) fun _ s1 =>
  let pr1 := takeScreenshot w cfg "initial_page" s1
  let s2 := { pr1.1 with screenshots := pr1.1.screenshots ++ [pr1.2] }
  bindE (startActionStep w cfg wiz.start_action s2) fun _ s3 =>
  bindE (pageLoop w cfg fv wiz.pages s3) fun _ s4 =>
  let pr2 := takeScreenshot w cfg "final_results" s4
  let s5 := { pr2.1 with screenshots := pr2.1.screenshots ++ [pr2.2] }
  let pr3 := extractResults w s5
  (pr3.1, Except.ok (pr3.2, pr2.2))

/-- The whole `try` block of `execute_wizard_atomically` (lines 98-209). -/
def tryBody (w : World) (cfg : Config) (wiz : WizardStructure) (fv : FieldValues)
    (s : EngineSt) : EngineSt × Except PyErr (ExtractedResults × String) :=
  bindE (launchBrowserFn w cfg s) fun _ s1 =>
  bindE (navRetry w wiz.url s1) fun _ s2 =>
  afterNav w cfg wiz fv s2

/-- Embedding of `_close_browser` (lines 624-646): close the browser if set, then stop
playwright if set; any exception is swallowed; the `finally` clears all
four handles unconditionally. -/
def closeBrowserFn (w : World) (s : EngineSt) : EngineSt :=
  let attempt :=
    if s.client.browserOpen then
      bindE (act w Action.closeBrowser s) fun _ s1 =>
      (if s1.client.playwrightOpen then act w Action.stopPlaywright s1
       else (s1, Except.ok ()))
    else
      if s.client.playwrightOpen then act w Action.stopPlaywright s
      else (s, Except.ok ())
  { attempt.1 with client := closedClient }

/-- The result record returned by `execute_wizard_atomically`
(time fields are not modelled). -/
structure RunResult where
  success : Bool
  wizard_id : Option String
  results : Option ExtractedResults
  error : Option String
  error_type : Option String
  screenshots : List String
  pages_completed : Nat
  deriving DecidableEq

/-- Fresh per-call state over the client's current handles: the two
locals start empty and the trace of world interactions starts empty. -/
def initSt (c : Client) : EngineSt :=
  { client := c, trace := [], screenshots := [], pagesCompleted := 0 }

/-- Embedding of `execute_wizard_atomically` (lines 68-247): run the try block; on
success return the success record (headless keeps only the final
screenshot); on any exception capture a best-effort error screenshot when
a page handle exists and return the failure record (headless keeps only
the last screenshot); in both cases `_close_browser` runs last. -/
def executeWizard (w : World) (cfg : Config) (wiz : WizardStructure) (fv : FieldValues)
    (c : Client) : RunResult × EngineSt :=
  match tryBody w cfg wiz fv (initSt c) with
  | (s, Except.ok (results, finalShot)) =>
    ({ success := true, wizard_id := some wiz.wizard_id, results := some results,
       error := none, error_type := none,
       screenshots := if cfg.headless then [finalShot] else s.screenshots,
       pages_completed := s.pagesCompleted },
     closeBrowserFn w s)
  | (s, Except.error e) =>
    let s1 :=
      if s.client.pageOpen then
        let pr := takeScreenshot w cfg "error" s
        { pr.1 with screenshots := pr.1.screenshots ++ [pr.2] }
      else s
    let responseShots :=
      if cfg.headless then
        match s1.screenshots.getLast? with
        | some last => [last]
        | none => s1.screenshots
      else s1.screenshots
    ({ success := false, wizard_id := none, results := none,
       error := some e.msg, error_type := some e.ty,
       screenshots := responseShots,
       pages_completed := s1.pagesCompleted },
     closeBrowserFn w s1)

/-! ## Specification-side definitions -/

/-- Concatenation of the lists produced for each element. -/
def listFlat {A B : Type} (f : A → List B) : List A → List B
  | [] => []
  | x :: xs => f x ++ listFlat f xs

/-- A state with `ext` appended to the trace and everything else unchanged. -/
def withTrace (s : EngineSt) (ext : List Action) : EngineSt :=
  { s with trace := s.trace ++ ext }

/-- The primitives whose failures the engine absorbs locally instead of
propagating: extraction (degraded payload) and screenshot capture or
persistence (empty placeholder). -/
def isAbsorbed : Action → Bool
  | Action.getTitle => true
  | Action.getInnerText _ => true
  | Action.screenshot _ => true
  | Action.saveShotToDisk _ => true
  | _ => false

/-- Every non-absorbed primitive from call position `k` on succeeds;
extraction and screenshots may still fail arbitrarily. -/
def okFrom (w : World) (k : Nat) : Prop :=
  ∀ n a, k ≤ n → isAbsorbed a = false → w.outcome n a = none

/-- Every primitive succeeds ("all interactions succeeding"). -/
def allSuccess (w : World) : Prop :=
  ∀ n a, w.outcome n a = none

/-- Labels of the screenshot-capture attempts in a trace, in order. -/
def shotLabels (t : List Action) : List String :=
  t.filterMap fun a =>
    match a with
    | Action.screenshot l => some l
    | _ => none

/-- Whether an action is a navigation (`page.goto`) attempt. -/
def isGoto : Action → Bool
  | Action.goto _ _ => true
  | _ => false

/-- Number of navigation attempts in a trace. -/
def gotoCount (t : List Action) : Nat :=
  (t.filter isGoto).length

/-- The structural validity the spec's data model demands of a wizard, as
far as the engine's behaviour depends on it: `total_pages` matches the
page list, and every group field declares a usable add-button selector. -/
def validWizard (wiz : WizardStructure) : Prop :=
  wiz.total_pages = wiz.pages.length ∧
  ∀ p ∈ wiz.pages, ∀ f ∈ p.fields, f.field_type = FieldType.group →
    ∃ ab, f.add_button_selector = some ab ∧ ab ≠ ""

/-- The value map supplies a value for every required field's selector. -/
def coversRequired (fv : FieldValues) (wiz : WizardStructure) : Prop :=
  ∀ p ∈ wiz.pages, ∀ f ∈ p.fields, f.required = true → (fv f.selector).isSome = true

/-- List values supplied to group fields hold dict items, as the schema
contract guarantees ("fully valid value map"). -/
def wellFormedGroupValues (fv : FieldValues) (wiz : WizardStructure) : Prop :=
  ∀ p ∈ wiz.pages, ∀ f ∈ p.fields, f.field_type = FieldType.group →
    ∀ items, fv f.selector = some (Value.vlist items) →
      ∀ it ∈ items, ∃ d, it = Value.vdict d

/-- Per-field form of the hypotheses above, used by the loop lemmas. -/
def fieldReady (fv : FieldValues) (f : FieldStructure) : Prop :=
  (f.required = true → (fv f.selector).isSome = true) ∧
  (f.field_type = FieldType.group →
    (∃ ab, f.add_button_selector = some ab ∧ ab ≠ "") ∧
    ∀ items, fv f.selector = some (Value.vlist items) →
      ∀ it ∈ items, ∃ d, it = Value.vdict d)

/-! ## Basic lemmas about states and primitives -/

@[simp] lemma withTrace_trace (s : EngineSt) (ext : List Action) :
    (withTrace s ext).trace = s.trace ++ ext := rfl

@[simp] lemma withTrace_client (s : EngineSt) (ext : List Action) :
    (withTrace s ext).client = s.client := rfl

@[simp] lemma withTrace_screenshots (s : EngineSt) (ext : List Action) :
    (withTrace s ext).screenshots = s.screenshots := rfl

@[simp] lemma withTrace_pages (s : EngineSt) (ext : List Action) :
    (withTrace s ext).pagesCompleted = s.pagesCompleted := rfl

lemma withTrace_withTrace (s : EngineSt) (e1 e2 : List Action) :
    withTrace (withTrace s e1) e2 = withTrace s (e1 ++ e2) := by
  simp [withTrace, List.append_assoc]

@[simp] lemma withTrace_nil (s : EngineSt) : withTrace s [] = s := by
  simp [withTrace]

lemma okFrom_of_le {w : World} {k m : Nat} (h : okFrom w k) (hkm : k ≤ m) :
    okFrom w m :=
  fun n a hn ha => h n a (Nat.le_trans hkm hn) ha

lemma act_fst (w : World) (a : Action) (s : EngineSt) :
    (act w a s).1 = withTrace s [a] := by
  unfold act
  cases w.outcome s.trace.length a <;> rfl

lemma act_ok {w : World} {s : EngineSt} (a : Action)
    (hw : okFrom w s.trace.length) (ha : isAbsorbed a = false) :
    act w a s = (withTrace s [a], Except.ok ()) := by
  unfold act
  rw [hw s.trace.length a (Nat.le_refl _) ha]
  rfl

lemma act_of_ok {w : World} {s : EngineSt} {a : Action}
    (h : w.outcome s.trace.length a = none) :
    act w a s = (withTrace s [a], Except.ok ()) := by
  unfold act
  rw [h]
  rfl

lemma act_of_err {w : World} {s : EngineSt} {a : Action} {e : PyErr}
    (h : w.outcome s.trace.length a = some e) :
    act w a s = (withTrace s [a], Except.error e) := by
  unfold act
  rw [h]
  rfl

lemma okFrom_withTrace {w : World} {s : EngineSt} (ext : List Action)
    (hw : okFrom w s.trace.length) :
    okFrom w (withTrace s ext).trace.length := by
  refine okFrom_of_le hw ?_
  simp [withTrace]


/-! ## Frame lemmas: every helper only appends to the trace; in
particular none of them touches the client handles or `pages_completed`. -/

@[simp] lemma bindE_ok_red {A B : Type} (s1 : EngineSt) (a : A)
    (f : A → EngineSt → EngineSt × Except PyErr B) :
    bindE (s1, Except.ok a) f = f a s1 := rfl

@[simp] lemma bindE_err_red {A B : Type} (s1 : EngineSt) (e : PyErr)
    (f : A → EngineSt → EngineSt × Except PyErr B) :
    bindE (s1, Except.error e) f = (s1, Except.error e) := rfl

lemma bindE_frame {A B : Type} {X : EngineSt × Except PyErr A}
    {f : A → EngineSt → EngineSt × Except PyErr B} {s : EngineSt}
    (hX : ∃ e1, X.1 = withTrace s e1)
    (hf : ∀ a s1, ∃ e2, (f a s1).1 = withTrace s1 e2) :
    ∃ ext, (bindE X f).1 = withTrace s ext := by
  obtain ⟨e1, h1⟩ := hX
  rcases hx : X with ⟨s1, r⟩
  rw [hx] at h1
  simp only at h1
  cases r with
  | error e =>
    exact ⟨e1, by simp [bindE, h1]⟩
  | ok a =>
    obtain ⟨e2, h2⟩ := hf a s1
    refine ⟨e1 ++ e2, ?_⟩
    show (f a s1).1 = withTrace s (e1 ++ e2)
    rw [h2, h1, withTrace_withTrace]

lemma act_frame (w : World) (a : Action) : ∀ s1, ∃ ext, (act w a s1).1 = withTrace s1 ext :=
  fun s1 => ⟨[a], act_fst w a s1⟩

lemma takeScreenshot_spec (w : World) (cfg : Config) (label : String) (s : EngineSt) :
    ∃ ext b, takeScreenshot w cfg label s = (withTrace s ext, b) ∧
      shotLabels ext = [label] := by
  cases h1 : w.outcome s.trace.length (Action.screenshot label) with
  | some e =>
    exact ⟨[Action.screenshot label], "",
      by simp [takeScreenshot, act, h1, withTrace], by simp [shotLabels]⟩
  | none =>
    by_cases hc : cfg.saveScreenshots = true
    · cases h2 : w.outcome (s.trace.length + 1) (Action.saveShotToDisk label) with
      | some e =>
        refine ⟨[Action.screenshot label, Action.saveShotToDisk label], "", ?_, by simp [shotLabels]⟩
        simp [takeScreenshot, act, h1, hc, h2, withTrace]
      | none =>
        refine ⟨[Action.screenshot label, Action.saveShotToDisk label],
          w.shot s.trace.length, ?_, by simp [shotLabels]⟩
        simp [takeScreenshot, act, h1, hc, h2, withTrace]
    · refine ⟨[Action.screenshot label], w.shot s.trace.length, ?_, by simp [shotLabels]⟩
      simp [takeScreenshot, act, h1, hc, withTrace]

lemma extractResults_frame (w : World) (s : EngineSt) :
    ∃ ext, (extractResults w s).1 = withTrace s ext := by
  cases h1 : w.outcome s.trace.length Action.getTitle with
  | some e => exact ⟨[Action.getTitle], by simp [extractResults, act, h1, withTrace]⟩
  | none =>
    cases h2 : w.outcome (s.trace.length + 1) (Action.getInnerText "body") with
    | some e =>
      exact ⟨[Action.getTitle, Action.getInnerText "body"],
        by simp [extractResults, act, h1, h2, withTrace]⟩
    | none =>
      exact ⟨[Action.getTitle, Action.getInnerText "body"],
        by simp [extractResults, act, h1, h2, withTrace]⟩

lemma runSelectStrategies_frame (w : World) (sel : String) :
    ∀ (strats : List SelectStrategy) (lastErr : Option PyErr) (s : EngineSt),
      ∃ ext, (runSelectStrategies w sel strats lastErr s).1 = withTrace s ext := by
  intro strats
  induction strats with
  | nil =>
    intro lastErr s
    cases lastErr <;> exact ⟨[], by simp [runSelectStrategies]⟩
  | cons strat rest ih =>
    intro lastErr s
    cases h1 : w.outcome s.trace.length (strategyAction sel strat) with
    | none =>
      exact ⟨[strategyAction sel strat],
        by simp [runSelectStrategies, act, h1, withTrace]⟩
    | some e =>
      obtain ⟨e2, h2⟩ := ih (some e) (withTrace s [strategyAction sel strat])
      rw [withTrace_withTrace] at h2
      refine ⟨[strategyAction sel strat] ++ e2, ?_⟩
      rw [show runSelectStrategies w sel (strat :: rest) lastErr s =
          runSelectStrategies w sel rest (some e) (withTrace s [strategyAction sel strat]) from by
        simp [runSelectStrategies, act_of_err h1]]
      exact h2

lemma selectStrategies_frame (w : World) (sel v : String) (s : EngineSt) :
    ∃ ext, (selectStrategies w sel v s).1 = withTrace s ext :=
  runSelectStrategies_frame w sel _ none s

lemma fillOneSubField_frame (w : World) (item : Value) (sf : SubField) (s : EngineSt) :
    ∃ ext, (fillOneSubField w item sf s).1 = withTrace s ext := by
  cases hd : dictGet item sf.field_id with
  | error e => exact ⟨[], by simp [fillOneSubField, hd]⟩
  | ok ov =>
    cases ov with
    | none => exact ⟨[], by simp [fillOneSubField, hd]⟩
    | some v =>
      cases hsf : sf.interaction with
      | fill =>
        exact ⟨[Action.fillSel sf.selector v.toStr],
          by simp [fillOneSubField, hd, hsf, act_fst]⟩
      | select =>
        cases h1 : w.outcome s.trace.length (Action.selectValue sf.selector v.toStr 5000) with
        | none =>
          exact ⟨[Action.selectValue sf.selector v.toStr 5000],
            by simp [fillOneSubField, hd, hsf, act, h1, withTrace]⟩
        | some e =>
          cases h2 : w.outcome (s.trace.length + 1)
              (Action.selectValue sf.selector (toUnicodeApos v.toStr) 5000) with
          | none =>
            exact ⟨[Action.selectValue sf.selector v.toStr 5000,
                    Action.selectValue sf.selector (toUnicodeApos v.toStr) 5000],
              by simp [fillOneSubField, hd, hsf, act, h1, h2, withTrace]⟩
          | some e2 =>
            exact ⟨[Action.selectValue sf.selector v.toStr 5000,
                    Action.selectValue sf.selector (toUnicodeApos v.toStr) 5000],
              by simp [fillOneSubField, hd, hsf, act, h1, h2, withTrace]⟩
      | click => exact ⟨[], by simp [fillOneSubField, hd, hsf]⟩
      | javascript_click => exact ⟨[], by simp [fillOneSubField, hd, hsf]⟩
      | fill_enter => exact ⟨[], by simp [fillOneSubField, hd, hsf]⟩

lemma fillSubFieldsLoop_frame (w : World) (item : Value) :
    ∀ (subs : List SubField) (s : EngineSt),
      ∃ ext, (fillSubFieldsLoop w item subs s).1 = withTrace s ext := by
  intro subs
  induction subs with
  | nil => exact fun s => ⟨[], by simp [fillSubFieldsLoop]⟩
  | cons sf rest ih =>
    intro s
    unfold fillSubFieldsLoop
    exact bindE_frame (fillOneSubField_frame w item sf s) (fun a s1 => ih s1)

lemma clickSaveStep_frame (w : World) (field_id : String) (n : Nat) (s : EngineSt) :
    ∃ ext, (clickSaveStep w field_id n s).1 = withTrace s ext := by
  have hb : ∃ ext, (bindE (act w (Action.clickText "Save") s) fun _ s1 =>
      act w (Action.waitTimeout 500) s1).1 = withTrace s ext :=
    bindE_frame (act_frame w (Action.clickText "Save") s)
      (fun a s1 => act_frame w (Action.waitTimeout 500) s1)
  obtain ⟨ext, h⟩ := hb
  rcases hx : bindE (act w (Action.clickText "Save") s) fun _ s1 =>
      act w (Action.waitTimeout 500) s1 with ⟨s1, r⟩
  rw [hx] at h
  simp only at h
  cases r with
  | ok a => exact ⟨ext, by simp [clickSaveStep, hx, h]⟩
  | error e => exact ⟨ext, by simp [clickSaveStep, hx, h]⟩

lemma fillGroupItem_frame (w : World) (field : FieldStructure) (item : Value)
    (index : Nat) (s : EngineSt) :
    ∃ ext, (fillGroupItem w field item index s).1 = withTrace s ext := by
  cases hab : field.add_button_selector with
  | none => exact ⟨[], by simp [fillGroupItem, hab]⟩
  | some ab =>
    by_cases he : ab = ""
    · exact ⟨[], by simp [fillGroupItem, hab, he]⟩
    · rw [show fillGroupItem w field item index s =
          (bindE (act w (Action.clickSel ab) s) fun _ s1 =>
           bindE (act w (Action.waitTimeout 500) s1) fun _ s2 =>
           bindE (fillSubFieldsLoop w item field.sub_fields s2) fun _ s3 =>
           clickSaveStep w field.field_id (index + 1) s3) from by
        simp [fillGroupItem, hab, he]]
      refine bindE_frame (act_frame w (Action.clickSel ab) s) (fun a s1 => ?_)
      refine bindE_frame (act_frame w (Action.waitTimeout 500) s1) (fun a s2 => ?_)
      refine bindE_frame (fillSubFieldsLoop_frame w item field.sub_fields s2) (fun a s3 => ?_)
      exact clickSaveStep_frame w field.field_id (index + 1) s3

lemma fillGroupLoop_frame (w : World) (field : FieldStructure) :
    ∀ (items : List Value) (index : Nat) (s : EngineSt),
      ∃ ext, (fillGroupLoop w field items index s).1 = withTrace s ext := by
  intro items
  induction items with
  | nil => exact fun index s => ⟨[], by simp [fillGroupLoop]⟩
  | cons item rest ih =>
    intro index s
    unfold fillGroupLoop
    exact bindE_frame (fillGroupItem_frame w field item index s) (fun a s1 => ih (index + 1) s1)

lemma fillScalarInner_frame (w : World) (field : FieldStructure) (v : Value) (s : EngineSt) :
    ∃ ext, (fillScalarInner w field v s).1 = withTrace s ext := by
  cases hfi : field.interaction with
  | fill => exact ⟨[Action.fillSel field.selector v.toStr], by simp [fillScalarInner, hfi, act_fst]⟩
  | fill_enter =>
    rw [show fillScalarInner w field v s =
        (bindE (act w (Action.fillSel field.selector v.toStr) s) fun _ s1 =>
         bindE (act w (Action.pressKey field.selector "Enter") s1) fun _ s2 =>
         act w (Action.waitTimeout 500) s2) from by simp [fillScalarInner, hfi]]
    refine bindE_frame (act_frame w (Action.fillSel field.selector v.toStr) s) (fun a s1 => ?_)
    refine bindE_frame (act_frame w (Action.pressKey field.selector "Enter") s1) (fun a s2 => ?_)
    exact act_frame w (Action.waitTimeout 500) s2
  | click => exact ⟨[Action.clickSel field.selector], by simp [fillScalarInner, hfi, act_fst]⟩
  | javascript_click => exact ⟨[Action.evalClick field.selector], by simp [fillScalarInner, hfi, act_fst]⟩
  | select =>
    rw [show fillScalarInner w field v s = selectStrategies w field.selector v.toStr s from by
      simp [fillScalarInner, hfi]]
    exact selectStrategies_frame w field.selector v.toStr s

lemma fillScalar_frame (w : World) (field : FieldStructure) (v : Value) (s : EngineSt) :
    ∃ ext, (fillScalar w field v s).1 = withTrace s ext := by
  obtain ⟨ext, h⟩ := fillScalarInner_frame w field v s
  rcases hx : fillScalarInner w field v s with ⟨s1, r⟩
  rw [hx] at h
  simp only at h
  cases r with
  | ok a => exact ⟨ext, by simp [fillScalar, hx, h]⟩
  | error e => exact ⟨ext, by simp [fillScalar, hx, h]⟩

lemma fillField_frame (w : World) (field : FieldStructure) (v : Value) (s : EngineSt) :
    ∃ ext, (fillField w field v s).1 = withTrace s ext := by
  cases v with
  | prim sv => exact fillScalar_frame w field _ s
  | vdict entries => exact fillScalar_frame w field _ s
  | vlist items =>
    by_cases hg : field.field_type = FieldType.group
    · by_cases hi : items.length = 0
      · exact ⟨[], by simp [fillField, hg, hi]⟩
      · rw [show fillField w field (Value.vlist items) s = fillGroupLoop w field items 0 s from by
          simp [fillField, hg, hi]]
        exact fillGroupLoop_frame w field items 0 s
    · rw [show fillField w field (Value.vlist items) s =
          fillScalar w field (Value.vlist items) s from by simp [fillField, hg]]
      exact fillScalar_frame w field _ s

lemma fillPageFields_frame (w : World) (fv : FieldValues) :
    ∀ (fields : List FieldStructure) (s : EngineSt),
      ∃ ext, (fillPageFields w fv fields s).1 = withTrace s ext := by
  intro fields
  induction fields with
  | nil => exact fun s => ⟨[], by simp [fillPageFields]⟩
  | cons field rest ih =>
    intro s
    cases hv : fv field.selector with
    | none =>
      by_cases hr : field.required = true
      · exact ⟨[], by simp [fillPageFields, hv, hr]⟩
      · rw [show fillPageFields w fv (field :: rest) s = fillPageFields w fv rest s from by
          simp [fillPageFields, hv, hr]]
        exact ih s
    | some v =>
      rw [show fillPageFields w fv (field :: rest) s =
          (bindE (fillField w field v s) fun _ s1 =>
           bindE (act w (Action.waitTimeout 300) s1) fun _ s2 =>
           fillPageFields w fv rest s2) from by simp [fillPageFields, hv]]
      refine bindE_frame (fillField_frame w field v s) (fun a s1 => ?_)
      refine bindE_frame (act_frame w (Action.waitTimeout 300) s1) (fun a s2 => ?_)
      exact ih s2

lemma clickByType_frame (w : World) (sel : String) (st : SelectorType) (s : EngineSt) :
    ∃ ext, (clickByType w sel st s).1 = withTrace s ext := by
  cases st with
  | text => exact ⟨[Action.clickText sel], by simp [clickByType, act_fst]⟩
  | id => exact ⟨[Action.clickSel (if sel.startsWith "#" then sel else "#" ++ sel)],
      by simp [clickByType, act_fst]⟩
  | css => exact ⟨[Action.clickSel sel], by simp [clickByType, act_fst]⟩
  | auto => exact ⟨[Action.clickSel sel], by simp [clickByType, act_fst]⟩

lemma clickContinue_frame (w : World) (cb : ContinueButton) (s : EngineSt) :
    ∃ ext, (clickContinue w cb s).1 = withTrace s ext := by
  obtain ⟨ext, h⟩ := clickByType_frame w cb.selector cb.selector_type s
  rcases hx : clickByType w cb.selector cb.selector_type s with ⟨s1, r⟩
  rw [hx] at h
  simp only at h
  cases r with
  | ok a => exact ⟨ext, by simp [clickContinue, hx, h]⟩
  | error e => exact ⟨ext, by simp [clickContinue, hx, h]⟩

lemma frame_pages {A : Type} {X : EngineSt × Except PyErr A} {s : EngineSt}
    (h : ∃ ext, X.1 = withTrace s ext) : X.1.pagesCompleted = s.pagesCompleted := by
  obtain ⟨ext, h⟩ := h
  rw [h]
  rfl

lemma runPage_pages (w : World) (cfg : Config) (fv : FieldValues) (p : PageStructure)
    (s : EngineSt) : (runPage w cfg fv p s).1.pagesCompleted = s.pagesCompleted := by
  unfold runPage
  obtain ⟨e0, h0⟩ := fillPageFields_frame w fv p.fields s
  rcases hx : fillPageFields w fv p.fields s with ⟨s1, r⟩
  rw [hx] at h0
  simp only at h0
  have hrest : ∀ s2 : EngineSt,
      (bindE (clickContinue w p.continue_button s2) fun _ s3 =>
        bindE (act w Action.waitLoadState s3) fun _ s4 =>
          act w (Action.waitTimeout 1500) s4).1.pagesCompleted = s2.pagesCompleted :=
    fun s2 => frame_pages (bindE_frame (clickContinue_frame w p.continue_button s2)
      (fun a s3 => bindE_frame (act_frame w Action.waitLoadState s3)
        (fun a2 s4 => act_frame w (Action.waitTimeout 1500) s4)))
  cases r with
  | error e => simp [h0]
  | ok a =>
    obtain ⟨e1, b1, h1, -⟩ := takeScreenshot_spec w cfg
      ("page_" ++ toString p.page_number ++ "_filled") s1
    simp only [bindE_ok_red, h1]
    rw [hrest]
    simp [h0, withTrace]

lemma bindE_ok {A B : Type} {X : EngineSt × Except PyErr A} {s1 : EngineSt} {a : A}
    (hX : X = (s1, Except.ok a)) (f : A → EngineSt → EngineSt × Except PyErr B) :
    bindE X f = f a s1 := by
  rw [hX, bindE_ok_red]

/-- All four handles set (after a fully successful `_launch_browser`). -/
def allOpen : Client :=
  { playwrightOpen := true, browserOpen := true, contextOpen := true, pageOpen := true }

lemma launchBrowserFn_ok {w : World} {s : EngineSt} (cfg : Config)
    (hw : okFrom w s.trace.length) :
    launchBrowserFn w cfg s =
      ({ withTrace s [Action.startPlaywright, Action.launchBrowser cfg.headless,
          Action.newContext, Action.newPage] with client := allOpen }, Except.ok ()) := by
  have e0 : w.outcome s.trace.length Action.startPlaywright = none :=
    hw _ _ (Nat.le_refl _) rfl
  have e1 : w.outcome (s.trace.length + 1) (Action.launchBrowser cfg.headless) = none :=
    hw _ _ (by omega) rfl
  have e2 : w.outcome (s.trace.length + 2) Action.newContext = none :=
    hw _ _ (by omega) rfl
  have e3 : w.outcome (s.trace.length + 3) Action.newPage = none :=
    hw _ _ (by omega) rfl
  simp [launchBrowserFn, act, e0, e1, e2, e3, withTrace, allOpen]

/-! ## Success lemmas: when every (non-extraction) primitive succeeds,
each component returns `Except.ok` and only appends to the state. -/

/-- A state advanced by trace `ext`, screenshots `shots` and `k` completed
pages. -/
def advSt (s : EngineSt) (ext : List Action) (shots : List String) (k : Nat) : EngineSt :=
  { s with
    trace := s.trace ++ ext
    screenshots := s.screenshots ++ shots
    pagesCompleted := s.pagesCompleted + k }

@[simp] lemma advSt_trace (s : EngineSt) (ext : List Action) (shots : List String) (k : Nat) :
    (advSt s ext shots k).trace = s.trace ++ ext := rfl

@[simp] lemma advSt_client (s : EngineSt) (ext : List Action) (shots : List String) (k : Nat) :
    (advSt s ext shots k).client = s.client := rfl

@[simp] lemma advSt_screenshots (s : EngineSt) (ext : List Action) (shots : List String) (k : Nat) :
    (advSt s ext shots k).screenshots = s.screenshots ++ shots := rfl

@[simp] lemma advSt_pages (s : EngineSt) (ext : List Action) (shots : List String) (k : Nat) :
    (advSt s ext shots k).pagesCompleted = s.pagesCompleted + k := rfl

lemma advSt_advSt (s : EngineSt) (e1 e2 : List Action) (sh1 sh2 : List String) (k1 k2 : Nat) :
    advSt (advSt s e1 sh1 k1) e2 sh2 k2 = advSt s (e1 ++ e2) (sh1 ++ sh2) (k1 + k2) := by
  simp [advSt, List.append_assoc, Nat.add_assoc]

@[simp] lemma advSt_nil (s : EngineSt) : advSt s [] [] 0 = s := by
  simp [advSt]

lemma withTrace_eq_advSt (s : EngineSt) (ext : List Action) :
    withTrace s ext = advSt s ext [] 0 := by
  simp [withTrace, advSt]

lemma okFrom_advSt {w : World} {s : EngineSt} (ext : List Action) (shots : List String)
    (k : Nat) (hw : okFrom w s.trace.length) :
    okFrom w (advSt s ext shots k).trace.length := by
  refine okFrom_of_le hw ?_
  simp

lemma act_okA {w : World} {s : EngineSt} (a : Action)
    (hw : okFrom w s.trace.length) (ha : isAbsorbed a = false) :
    act w a s = (advSt s [a] [] 0, Except.ok ()) := by
  rw [act_ok a hw ha, withTrace_eq_advSt]

lemma navRetry_ok_first {w : World} {s : EngineSt} (url : String)
    (hw : okFrom w s.trace.length) :
    navRetry w url s = (advSt s [Action.goto url 20000] [] 0, Except.ok ()) := by
  have e0 : w.outcome s.trace.length (Action.goto url 20000) = none :=
    hw _ _ (Nat.le_refl _) rfl
  simp [navRetry, navLoop, navAttemptStep, act, e0, advSt, withTrace]

lemma selectStrategies_ok {w : World} {s : EngineSt} (sel v : String)
    (hw : okFrom w s.trace.length) :
    selectStrategies w sel v s = (advSt s [Action.selectValue sel v 5000] [] 0, Except.ok ()) := by
  have e0 : w.outcome s.trace.length (Action.selectValue sel v 5000) = none :=
    hw _ _ (Nat.le_refl _) rfl
  simp [selectStrategies, selectStrategyList, runSelectStrategies, strategyAction,
    act, e0, advSt, withTrace]

lemma fillScalarInner_ok {w : World} {s : EngineSt} (field : FieldStructure) (v : Value)
    (hw : okFrom w s.trace.length) :
    ∃ ext, fillScalarInner w field v s = (advSt s ext [] 0, Except.ok ()) := by
  cases hfi : field.interaction with
  | fill =>
    have e0 : w.outcome s.trace.length (Action.fillSel field.selector v.toStr) = none :=
      hw _ _ (Nat.le_refl _) rfl
    exact ⟨[Action.fillSel field.selector v.toStr],
      by simp [fillScalarInner, hfi, act, e0, advSt]⟩
  | fill_enter =>
    have e0 : w.outcome s.trace.length (Action.fillSel field.selector v.toStr) = none :=
      hw _ _ (Nat.le_refl _) rfl
    have e1 : w.outcome (s.trace.length + 1) (Action.pressKey field.selector "Enter") = none :=
      hw _ _ (by omega) rfl
    have e2 : w.outcome (s.trace.length + 2) (Action.waitTimeout 500) = none :=
      hw _ _ (by omega) rfl
    exact ⟨[Action.fillSel field.selector v.toStr, Action.pressKey field.selector "Enter",
        Action.waitTimeout 500],
      by simp [fillScalarInner, hfi, act, e0, e1, e2, advSt]⟩
  | click =>
    have e0 : w.outcome s.trace.length (Action.clickSel field.selector) = none :=
      hw _ _ (Nat.le_refl _) rfl
    exact ⟨[Action.clickSel field.selector], by simp [fillScalarInner, hfi, act, e0, advSt]⟩
  | javascript_click =>
    have e0 : w.outcome s.trace.length (Action.evalClick field.selector) = none :=
      hw _ _ (Nat.le_refl _) rfl
    exact ⟨[Action.evalClick field.selector], by simp [fillScalarInner, hfi, act, e0, advSt]⟩
  | select =>
    exact ⟨[Action.selectValue field.selector v.toStr 5000],
      by simp [fillScalarInner, hfi, selectStrategies_ok field.selector v.toStr hw]⟩

lemma fillScalar_ok {w : World} {s : EngineSt} (field : FieldStructure) (v : Value)
    (hw : okFrom w s.trace.length) :
    ∃ ext, fillScalar w field v s = (advSt s ext [] 0, Except.ok ()) := by
  obtain ⟨ext, h⟩ := fillScalarInner_ok field v hw
  exact ⟨ext, by simp [fillScalar, h]⟩

lemma fillOneSubField_ok {w : World} {s : EngineSt} {item : Value} (sf : SubField)
    (hw : okFrom w s.trace.length) (hd : ∃ d, item = Value.vdict d) :
    ∃ ext, fillOneSubField w item sf s = (advSt s ext [] 0, Except.ok ()) := by
  obtain ⟨d, rfl⟩ := hd
  cases hv : (d.find? fun p => p.1 == sf.field_id) with
  | none => exact ⟨[], by simp [fillOneSubField, dictGet, hv]⟩
  | some p =>
    cases hsf : sf.interaction with
    | fill =>
      have e0 : w.outcome s.trace.length (Action.fillSel sf.selector p.2.toStr) = none :=
        hw _ _ (Nat.le_refl _) rfl
      exact ⟨[Action.fillSel sf.selector p.2.toStr],
        by simp [fillOneSubField, dictGet, hv, hsf, act, e0, advSt]⟩
    | select =>
      have e0 : w.outcome s.trace.length (Action.selectValue sf.selector p.2.toStr 5000) = none :=
        hw _ _ (Nat.le_refl _) rfl
      exact ⟨[Action.selectValue sf.selector p.2.toStr 5000],
        by simp [fillOneSubField, dictGet, hv, hsf, act, e0, advSt]⟩
    | click => exact ⟨[], by simp [fillOneSubField, dictGet, hv, hsf]⟩
    | javascript_click => exact ⟨[], by simp [fillOneSubField, dictGet, hv, hsf]⟩
    | fill_enter => exact ⟨[], by simp [fillOneSubField, dictGet, hv, hsf]⟩

lemma fillSubFieldsLoop_ok {w : World} {item : Value} (hd : ∃ d, item = Value.vdict d) :
    ∀ (subs : List SubField) (s : EngineSt), okFrom w s.trace.length →
      ∃ ext, fillSubFieldsLoop w item subs s = (advSt s ext [] 0, Except.ok ()) := by
  intro subs
  induction subs with
  | nil => exact fun s hw => ⟨[], by simp [fillSubFieldsLoop]⟩
  | cons sf rest ih =>
    intro s hw
    obtain ⟨e1, h1⟩ := fillOneSubField_ok sf hw hd
    obtain ⟨e2, h2⟩ := ih (advSt s e1 [] 0) (okFrom_advSt e1 [] 0 hw)
    refine ⟨e1 ++ e2, ?_⟩
    unfold fillSubFieldsLoop
    rw [bindE_ok h1, h2, advSt_advSt]
    simp

lemma clickSaveStep_ok {w : World} {s : EngineSt} (field_id : String) (n : Nat)
    (hw : okFrom w s.trace.length) :
    clickSaveStep w field_id n s =
      (advSt s [Action.clickText "Save", Action.waitTimeout 500] [] 0, Except.ok ()) := by
  have e0 : w.outcome s.trace.length (Action.clickText "Save") = none :=
    hw _ _ (Nat.le_refl _) rfl
  have e1 : w.outcome (s.trace.length + 1) (Action.waitTimeout 500) = none :=
    hw _ _ (by omega) rfl
  simp [clickSaveStep, bindE, act, e0, e1, advSt, withTrace]

lemma fillGroupItem_ok {w : World} {s : EngineSt} {field : FieldStructure} {item : Value}
    {ab : String} (index : Nat) (hw : okFrom w s.trace.length)
    (hab : field.add_button_selector = some ab) (hne : ab ≠ "")
    (hd : ∃ d, item = Value.vdict d) :
    ∃ ext, fillGroupItem w field item index s = (advSt s ext [] 0, Except.ok ()) := by
  have e0 : w.outcome s.trace.length (Action.clickSel ab) = none :=
    hw _ _ (Nat.le_refl _) rfl
  have e1 : w.outcome (s.trace.length + 1) (Action.waitTimeout 500) = none :=
    hw _ _ (by omega) rfl
  have hstep : act w (Action.clickSel ab) s = (advSt s [Action.clickSel ab] [] 0, Except.ok ()) :=
    act_okA _ hw rfl
  have hstep2 : act w (Action.waitTimeout 500) (advSt s [Action.clickSel ab] [] 0) =
      (advSt (advSt s [Action.clickSel ab] [] 0) [Action.waitTimeout 500] [] 0, Except.ok ()) :=
    act_okA _ (okFrom_advSt _ _ _ hw) rfl
  obtain ⟨e3, h3⟩ := fillSubFieldsLoop_ok hd field.sub_fields
    (advSt (advSt s [Action.clickSel ab] [] 0) [Action.waitTimeout 500] [] 0)
    (okFrom_advSt _ _ _ (okFrom_advSt _ _ _ hw))
  have h4 := clickSaveStep_ok field.field_id (index + 1)
    (okFrom_advSt _ _ _ (okFrom_advSt _ _ _ (okFrom_advSt _ _ _ hw)))
    (s := advSt (advSt (advSt s [Action.clickSel ab] [] 0) [Action.waitTimeout 500] [] 0) e3 [] 0)
  refine ⟨[Action.clickSel ab] ++ [Action.waitTimeout 500] ++ e3 ++
    [Action.clickText "Save", Action.waitTimeout 500], ?_⟩
  unfold fillGroupItem
  rw [hab]
  simp only [hne, if_false]
  rw [bindE_ok hstep, bindE_ok hstep2, bindE_ok h3, h4]
  rw [advSt_advSt, advSt_advSt, advSt_advSt]
  simp

lemma fillGroupLoop_ok {w : World} {field : FieldStructure} {ab : String}
    (hab : field.add_button_selector = some ab) (hne : ab ≠ "") :
    ∀ (items : List Value) (index : Nat) (s : EngineSt), okFrom w s.trace.length →
      (∀ it ∈ items, ∃ d, it = Value.vdict d) →
      ∃ ext, fillGroupLoop w field items index s = (advSt s ext [] 0, Except.ok ()) := by
  intro items
  induction items with
  | nil => exact fun index s hw _ => ⟨[], by simp [fillGroupLoop]⟩
  | cons item rest ih =>
    intro index s hw hd
    obtain ⟨e1, h1⟩ := fillGroupItem_ok index hw hab hne (hd item (by simp))
    obtain ⟨e2, h2⟩ := ih (index + 1) (advSt s e1 [] 0) (okFrom_advSt _ _ _ hw)
      (fun it hit => hd it (by simp [hit]))
    refine ⟨e1 ++ e2, ?_⟩
    unfold fillGroupLoop
    rw [bindE_ok h1, h2, advSt_advSt]
    simp

lemma fillField_ok {w : World} {s : EngineSt} {field : FieldStructure} (v : Value)
    (hw : okFrom w s.trace.length)
    (hg : field.field_type = FieldType.group →
      (∃ ab, field.add_button_selector = some ab ∧ ab ≠ "") ∧
      ∀ items, v = Value.vlist items → ∀ it ∈ items, ∃ d, it = Value.vdict d) :
    ∃ ext, fillField w field v s = (advSt s ext [] 0, Except.ok ()) := by
  cases v with
  | prim sv => exact fillScalar_ok field _ hw
  | vdict entries => exact fillScalar_ok field _ hw
  | vlist items =>
    by_cases hgt : field.field_type = FieldType.group
    · obtain ⟨⟨ab, hab, hne⟩, hitems⟩ := hg hgt
      by_cases hi : items.length = 0
      · exact ⟨[], by simp [fillField, hgt, hi]⟩
      · obtain ⟨ext, h⟩ := fillGroupLoop_ok hab hne items 0 s hw (hitems items rfl)
        exact ⟨ext, by simp [fillField, hgt, hi, h]⟩
    · obtain ⟨ext, h⟩ := fillScalar_ok field (Value.vlist items) hw
      exact ⟨ext, by simp [fillField, hgt, h]⟩

lemma fillPageFields_ok {w : World} {fv : FieldValues} :
    ∀ (fields : List FieldStructure) (s : EngineSt), okFrom w s.trace.length →
      (∀ f ∈ fields, fieldReady fv f) →
      ∃ ext, fillPageFields w fv fields s = (advSt s ext [] 0, Except.ok ()) := by
  intro fields
  induction fields with
  | nil => exact fun s hw _ => ⟨[], by simp [fillPageFields]⟩
  | cons field rest ih =>
    intro s hw hfr
    have hf : fieldReady fv field := hfr field (by simp)
    cases hv : fv field.selector with
    | none =>
      cases hreq : field.required with
      | true =>
        have := hf.1 hreq
        rw [hv] at this
        simp at this
      | false =>
        obtain ⟨ext, h⟩ := ih s hw (fun f hmem => hfr f (by simp [hmem]))
        exact ⟨ext, by simp [fillPageFields, hv, hreq, h]⟩
    | some v =>
      have hg : field.field_type = FieldType.group →
          (∃ ab, field.add_button_selector = some ab ∧ ab ≠ "") ∧
          ∀ items, v = Value.vlist items → ∀ it ∈ items, ∃ d, it = Value.vdict d := by
        intro hgt
        refine ⟨(hf.2 hgt).1, fun items hvi it hit => ?_⟩
        exact (hf.2 hgt).2 items (by rw [← hvi]; exact hv) it hit
      obtain ⟨e1, h1⟩ := fillField_ok v hw hg
      have h2 : act w (Action.waitTimeout 300) (advSt s e1 [] 0) =
          (advSt (advSt s e1 [] 0) [Action.waitTimeout 300] [] 0, Except.ok ()) :=
        act_okA _ (okFrom_advSt _ _ _ hw) rfl
      obtain ⟨e3, h3⟩ := ih (advSt (advSt s e1 [] 0) [Action.waitTimeout 300] [] 0)
        (okFrom_advSt _ _ _ (okFrom_advSt _ _ _ hw))
        (fun f hmem => hfr f (by simp [hmem]))
      refine ⟨e1 ++ [Action.waitTimeout 300] ++ e3, ?_⟩
      rw [show fillPageFields w fv (field :: rest) s =
          (bindE (fillField w field v s) fun _ s1 =>
           bindE (act w (Action.waitTimeout 300) s1) fun _ s2 =>
           fillPageFields w fv rest s2) from by simp [fillPageFields, hv]]
      rw [bindE_ok h1, bindE_ok h2, h3, advSt_advSt, advSt_advSt]
      simp

lemma clickByType_ok {w : World} {s : EngineSt} (sel : String) (st : SelectorType)
    (hw : okFrom w s.trace.length) :
    ∃ ext, clickByType w sel st s = (advSt s ext [] 0, Except.ok ()) := by
  cases st with
  | text => exact ⟨[Action.clickText sel],
      by simp [clickByType, act_okA (Action.clickText sel) hw rfl]⟩
  | id => exact ⟨[Action.clickSel (if sel.startsWith "#" then sel else "#" ++ sel)],
      by simp [clickByType,
        act_okA (Action.clickSel (if sel.startsWith "#" then sel else "#" ++ sel)) hw rfl]⟩
  | css => exact ⟨[Action.clickSel sel],
      by simp [clickByType, act_okA (Action.clickSel sel) hw rfl]⟩
  | auto => exact ⟨[Action.clickSel sel],
      by simp [clickByType, act_okA (Action.clickSel sel) hw rfl]⟩

lemma clickContinue_ok {w : World} {s : EngineSt} (cb : ContinueButton)
    (hw : okFrom w s.trace.length) :
    ∃ ext, clickContinue w cb s = (advSt s ext [] 0, Except.ok ()) := by
  obtain ⟨ext, h⟩ := clickByType_ok cb.selector cb.selector_type hw
  exact ⟨ext, by simp [clickContinue, h]⟩

lemma execStartAction_ok {w : World} {s : EngineSt} (sa : StartAction)
    (hw : okFrom w s.trace.length) :
    ∃ ext, execStartAction w sa s = (advSt s ext [] 0, Except.ok ()) := by
  obtain ⟨ext, h⟩ := clickByType_ok sa.selector sa.selector_type hw
  exact ⟨ext, by simp [execStartAction, h]⟩

lemma takeScreenshot_specA (w : World) (cfg : Config) (label : String) (s : EngineSt) :
    ∃ ext b, takeScreenshot w cfg label s = (advSt s ext [] 0, b) ∧
      shotLabels ext = [label] := by
  obtain ⟨ext, b, h, hl⟩ := takeScreenshot_spec w cfg label s
  exact ⟨ext, b, by rw [h, withTrace_eq_advSt], hl⟩

lemma contChain_ok {w : World} {s : EngineSt} (cb : ContinueButton)
    (hw : okFrom w s.trace.length) :
    ∃ ext, (bindE (clickContinue w cb s) fun _ s3 =>
        bindE (act w Action.waitLoadState s3) fun _ s4 =>
          act w (Action.waitTimeout 1500) s4) = (advSt s ext [] 0, Except.ok ()) := by
  obtain ⟨e1, h1⟩ := clickContinue_ok cb hw
  have h2 : act w Action.waitLoadState (advSt s e1 [] 0) =
      (advSt (advSt s e1 [] 0) [Action.waitLoadState] [] 0, Except.ok ()) :=
    act_okA _ (okFrom_advSt _ _ _ hw) rfl
  have h3 : act w (Action.waitTimeout 1500)
        (advSt (advSt s e1 [] 0) [Action.waitLoadState] [] 0) =
      (advSt (advSt (advSt s e1 [] 0) [Action.waitLoadState] [] 0)
        [Action.waitTimeout 1500] [] 0, Except.ok ()) :=
    act_okA _ (okFrom_advSt _ _ _ (okFrom_advSt _ _ _ hw)) rfl
  refine ⟨e1 ++ [Action.waitLoadState] ++ [Action.waitTimeout 1500], ?_⟩
  rw [bindE_ok h1, bindE_ok h2, h3, advSt_advSt, advSt_advSt]
  simp

lemma runPage_ok {w : World} {fv : FieldValues} (cfg : Config) (p : PageStructure)
    {s : EngineSt} (hw : okFrom w s.trace.length)
    (hfr : ∀ f ∈ p.fields, fieldReady fv f) :
    ∃ ext b, runPage w cfg fv p s = (advSt s ext [b] 0, Except.ok ()) := by
  unfold runPage
  obtain ⟨e0, h0⟩ := fillPageFields_ok p.fields s hw hfr
  rw [bindE_ok h0]
  simp only []
  obtain ⟨e1, b1, h1, -⟩ := takeScreenshot_specA w cfg
    ("page_" ++ toString p.page_number ++ "_filled") (advSt s e0 [] 0)
  simp only [h1]
  have hS2 : ({ advSt (advSt s e0 [] 0) e1 [] 0 with
      screenshots := (advSt (advSt s e0 [] 0) e1 [] 0).screenshots ++ [b1] } : EngineSt) =
      advSt s (e0 ++ e1) [b1] 0 := by
    simp [advSt]
  rw [hS2]
  obtain ⟨e2, h2⟩ := contChain_ok p.continue_button
    (okFrom_advSt (e0 ++ e1) [b1] 0 hw)
  rw [h2, advSt_advSt]
  exact ⟨(e0 ++ e1) ++ e2, b1, by simp⟩

lemma pageLoop_ok {w : World} {fv : FieldValues} (cfg : Config) :
    ∀ (ps : List PageStructure) (s : EngineSt), okFrom w s.trace.length →
      (∀ p ∈ ps, ∀ f ∈ p.fields, fieldReady fv f) →
      ∃ ext shots, pageLoop w cfg fv ps s =
        (advSt s ext shots ps.length, Except.ok ()) := by
  intro ps
  induction ps with
  | nil => exact fun s hw _ => ⟨[], [], by simp [pageLoop]⟩
  | cons p rest ih =>
    intro s hw hfr
    obtain ⟨e1, b1, h1⟩ := runPage_ok cfg p hw (hfr p (by simp))
    have hinc : ({ advSt s e1 [b1] 0 with
        pagesCompleted := (advSt s e1 [b1] 0).pagesCompleted + 1 } : EngineSt) =
        advSt s e1 [b1] 1 := by
      simp [advSt]
    obtain ⟨e2, sh2, h2⟩ := ih (advSt s e1 [b1] 1) (okFrom_advSt _ _ _ hw)
      (fun q hq => hfr q (by simp [hq]))
    refine ⟨e1 ++ e2, [b1] ++ sh2, ?_⟩
    unfold pageLoop
    rw [bindE_ok h1, hinc, h2, advSt_advSt]
    simp [Nat.add_comm]

lemma startActionStep_ok {w : World} (cfg : Config) (osa : Option StartAction)
    {s : EngineSt} (hw : okFrom w s.trace.length) :
    ∃ ext shots, startActionStep w cfg osa s = (advSt s ext shots 0, Except.ok ()) := by
  cases osa with
  | none => exact ⟨[], [], by simp [startActionStep]⟩
  | some sa =>
    obtain ⟨e1, h1⟩ := execStartAction_ok sa hw
    have h2 : act w Action.waitLoadState (advSt s e1 [] 0) =
        (advSt (advSt s e1 [] 0) [Action.waitLoadState] [] 0, Except.ok ()) :=
      act_okA _ (okFrom_advSt _ _ _ hw) rfl
    have h3 : act w (Action.waitTimeout 1000)
          (advSt (advSt s e1 [] 0) [Action.waitLoadState] [] 0) =
        (advSt (advSt (advSt s e1 [] 0) [Action.waitLoadState] [] 0)
          [Action.waitTimeout 1000] [] 0, Except.ok ()) :=
      act_okA _ (okFrom_advSt _ _ _ (okFrom_advSt _ _ _ hw)) rfl
    simp only [startActionStep]
    rw [bindE_ok h1, bindE_ok h2, bindE_ok h3, advSt_advSt, advSt_advSt]
    simp only [List.append_nil, Nat.add_zero]
    obtain ⟨e4, b4, h4, -⟩ := takeScreenshot_specA w cfg "after_start_action"
      (advSt s (e1 ++ ([Action.waitLoadState] ++ [Action.waitTimeout 1000])) [] 0)
    rw [h4]
    refine ⟨e1 ++ ([Action.waitLoadState] ++ [Action.waitTimeout 1000]) ++ e4, [b4], ?_⟩
    simp [advSt, List.append_assoc]

lemma extractResults_allOk {w : World} (s : EngineSt)
    (h1 : ∀ n, w.outcome n Action.getTitle = none)
    (h2 : ∀ n, w.outcome n (Action.getInnerText "body") = none) :
    (extractResults w s).2 =
      ExtractedResults.ok w.pageUrl w.pageTitle (w.bodyText.take 2000) := by
  simp [extractResults, act, h1, h2]

lemma extractResults_titleFail {w : World} (s : EngineSt) {e : PyErr}
    (h1 : ∀ n, w.outcome n Action.getTitle = some e) :
    (extractResults w s).2 = ExtractedResults.degraded e.msg := by
  simp [extractResults, act, h1]

lemma afterNav_core {w : World} {fv : FieldValues} (cfg : Config) (wiz : WizardStructure)
    {s : EngineSt} (hw : okFrom w s.trace.length)
    (hps : ∀ p ∈ wiz.pages, ∀ f ∈ p.fields, fieldReady fv f) :
    ∃ ext shots r b, afterNav w cfg wiz fv s =
        (advSt s ext shots wiz.pages.length, Except.ok (r, b)) ∧
      ((∀ n, w.outcome n Action.getTitle = none) →
        (∀ n, w.outcome n (Action.getInnerText "body") = none) →
        r = ExtractedResults.ok w.pageUrl w.pageTitle (w.bodyText.take 2000)) ∧
      (∀ e2, (∀ n, w.outcome n Action.getTitle = some e2) →
        r = ExtractedResults.degraded e2.msg) := by
  unfold afterNav
  rw [bindE_ok (act_okA (Action.waitTimeout 1000) hw rfl)]
  simp only []
  obtain ⟨e1, b1, h1, -⟩ := takeScreenshot_specA w cfg "initial_page"
    (advSt s [Action.waitTimeout 1000] [] 0)
  simp only [h1]
  have hS2 : ({ advSt (advSt s [Action.waitTimeout 1000] [] 0) e1 [] 0 with
      screenshots :=
        (advSt (advSt s [Action.waitTimeout 1000] [] 0) e1 [] 0).screenshots ++ [b1] } :
        EngineSt) =
      advSt s ([Action.waitTimeout 1000] ++ e1) [b1] 0 := by
    simp [advSt]
  rw [hS2]
  obtain ⟨e2, sh2, h2⟩ := startActionStep_ok cfg wiz.start_action
    (okFrom_advSt ([Action.waitTimeout 1000] ++ e1) [b1] 0 hw)
  rw [bindE_ok h2, advSt_advSt]
  simp only [Nat.add_zero]
  obtain ⟨e3, sh3, h3⟩ := pageLoop_ok cfg wiz.pages
    (advSt s (([Action.waitTimeout 1000] ++ e1) ++ e2) ([b1] ++ sh2) 0)
    (okFrom_advSt _ _ _ hw) hps
  rw [bindE_ok h3, advSt_advSt]
  simp only [Nat.zero_add]
  obtain ⟨e4, b4, h4, -⟩ := takeScreenshot_specA w cfg "final_results"
    (advSt s ((([Action.waitTimeout 1000] ++ e1) ++ e2) ++ e3) (([b1] ++ sh2) ++ sh3)
      wiz.pages.length)
  simp only [h4]
  have hS5 : ({ advSt (advSt s ((([Action.waitTimeout 1000] ++ e1) ++ e2) ++ e3)
        (([b1] ++ sh2) ++ sh3) wiz.pages.length) e4 [] 0 with
      screenshots :=
        (advSt (advSt s ((([Action.waitTimeout 1000] ++ e1) ++ e2) ++ e3)
          (([b1] ++ sh2) ++ sh3) wiz.pages.length) e4 [] 0).screenshots ++ [b4] } :
        EngineSt) =
      advSt s (((([Action.waitTimeout 1000] ++ e1) ++ e2) ++ e3) ++ e4)
        ((([b1] ++ sh2) ++ sh3) ++ [b4]) wiz.pages.length := by
    simp [advSt]
  rw [hS5]
  obtain ⟨e6, h6⟩ := extractResults_frame w
    (advSt s (((([Action.waitTimeout 1000] ++ e1) ++ e2) ++ e3) ++ e4)
      ((([b1] ++ sh2) ++ sh3) ++ [b4]) wiz.pages.length)
  refine ⟨((((([Action.waitTimeout 1000] ++ e1) ++ e2) ++ e3) ++ e4) ++ e6),
    ((([b1] ++ sh2) ++ sh3) ++ [b4]),
    (extractResults w
      (advSt s (((([Action.waitTimeout 1000] ++ e1) ++ e2) ++ e3) ++ e4)
        ((([b1] ++ sh2) ++ sh3) ++ [b4]) wiz.pages.length)).2, b4, ?_, ?_, ?_⟩
  · rw [Prod.ext_iff]
    refine ⟨?_, rfl⟩
    rw [h6, withTrace_eq_advSt, advSt_advSt]
    simp
  · intro hA hB
    rw [extractResults_allOk _ hA hB]
  · intro e2x hA
    rw [extractResults_titleFail _ hA]

lemma tryBody_ok {w : World} {fv : FieldValues} (cfg : Config) (wiz : WizardStructure)
    {s : EngineSt} (hw : okFrom w s.trace.length)
    (hps : ∀ p ∈ wiz.pages, ∀ f ∈ p.fields, fieldReady fv f) :
    ∃ ext shots r b, tryBody w cfg wiz fv s =
        ({ advSt s ext shots wiz.pages.length with client := allOpen }, Except.ok (r, b)) ∧
      ((∀ n, w.outcome n Action.getTitle = none) →
        (∀ n, w.outcome n (Action.getInnerText "body") = none) →
        r = ExtractedResults.ok w.pageUrl w.pageTitle (w.bodyText.take 2000)) ∧
      (∀ e2, (∀ n, w.outcome n Action.getTitle = some e2) →
        r = ExtractedResults.degraded e2.msg) := by
  unfold tryBody
  rw [bindE_ok (launchBrowserFn_ok cfg hw)]
  have hwL : okFrom w (({ withTrace s [Action.startPlaywright,
      Action.launchBrowser cfg.headless, Action.newContext, Action.newPage] with
      client := allOpen } : EngineSt)).trace.length :=
    okFrom_withTrace _ hw
  rw [bindE_ok (navRetry_ok_first wiz.url hwL)]
  obtain ⟨ext, shots, r, b, hAN, hr1, hr2⟩ := afterNav_core cfg wiz
    (okFrom_advSt [Action.goto wiz.url 20000] [] 0 hwL) hps
  rw [hAN]
  refine ⟨[Action.startPlaywright, Action.launchBrowser cfg.headless, Action.newContext,
    Action.newPage] ++ [Action.goto wiz.url 20000] ++ ext, shots, r, b, ?_, hr1, hr2⟩
  rw [Prod.ext_iff]
  refine ⟨?_, rfl⟩
  simp [advSt, withTrace, List.append_assoc]

/-! ## Claim theorems -/

lemma fieldReady_of_hyps {fv : FieldValues} {wiz : WizardStructure}
    (hv : validWizard wiz) (hreq : coversRequired fv wiz)
    (hwf : wellFormedGroupValues fv wiz) :
    ∀ p ∈ wiz.pages, ∀ f ∈ p.fields, fieldReady fv f := by
  intro p hp f hf
  exact ⟨fun hr => hreq p hp f hf hr,
    fun hg => ⟨hv.2 p hp f hf hg,
      fun items hvi it hit => hwf p hp f hf hg items hvi it hit⟩⟩

/-- Claim C1: for every valid wizard structure with `N` pages and a fully valid
value map covering every required field's selector, with all interactions
succeeding, `execute_wizard_atomically` returns `success = true` and
`pages_completed = N`; moreover (for every world) a page iteration never
itself mutates `pages_completed`, and a failing page iteration —
in particular one whose continue click fails — aborts the page loop
without the increment, so `pages_completed` is incremented only after a
page's continue action has succeeded. -/
theorem C1_success_all_pages (w : World) (cfg : Config) (wiz : WizardStructure)
    (fv : FieldValues) (c : Client) (hall : allSuccess w) (hv : validWizard wiz)
    (hreq : coversRequired fv wiz) (hwf : wellFormedGroupValues fv wiz) :
    (executeWizard w cfg wiz fv c).1.success = true ∧
    (executeWizard w cfg wiz fv c).1.pages_completed = wiz.total_pages ∧
    (∀ (w2 : World) (cfg2 : Config) (fv2 : FieldValues) (p : PageStructure) (s : EngineSt),
      (runPage w2 cfg2 fv2 p s).1.pagesCompleted = s.pagesCompleted) ∧
    (∀ (w2 : World) (cfg2 : Config) (fv2 : FieldValues) (p : PageStructure)
      (rest : List PageStructure) (s s1 : EngineSt) (e : PyErr),
      runPage w2 cfg2 fv2 p s = (s1, Except.error e) →
      pageLoop w2 cfg2 fv2 (p :: rest) s = (s1, Except.error e)) := by
  have hok : okFrom w (initSt c).trace.length := fun n a _ _ => hall n a
  obtain ⟨ext, shots, r, b, hTB, -, -⟩ :=
    tryBody_ok cfg wiz hok (fieldReady_of_hyps hv hreq hwf)
  refine ⟨?_, ?_, ?_, ?_⟩
  · simp [executeWizard, hTB]
  · unfold executeWizard
    rw [hTB]
    simp [advSt, initSt, hv.1]
  · exact fun w2 cfg2 fv2 p s => runPage_pages w2 cfg2 fv2 p s
  · intro w2 cfg2 fv2 p rest s s1 e h
    simp [pageLoop, h]

/-- Claim C2: on every exit path of `execute_wizard_atomically` — success or any
fatal error — `_close_browser` has run: the returned client state holds no
browser, context, page or playwright handle; and `_close_browser` itself
always clears all four handles, closing the browser (which owns context
and page) when it was open and stopping the automation session when it
was the only thing left open. -/
theorem C2_always_closed (w : World) (cfg : Config) (wiz : WizardStructure)
    (fv : FieldValues) (c : Client) :
    (executeWizard w cfg wiz fv c).2.client = closedClient ∧
    (∀ (w2 : World) (s : EngineSt), (closeBrowserFn w2 s).client = closedClient) ∧
    (∀ (w2 : World) (s : EngineSt), s.client.browserOpen = true →
      Action.closeBrowser ∈ (closeBrowserFn w2 s).trace) ∧
    (∀ (w2 : World) (s : EngineSt), s.client.browserOpen = false →
      s.client.playwrightOpen = true →
      Action.stopPlaywright ∈ (closeBrowserFn w2 s).trace) := by
  have hclient : ∀ (w2 : World) (s : EngineSt), (closeBrowserFn w2 s).client = closedClient :=
    fun w2 s => rfl
  refine ⟨?_, hclient, ?_, ?_⟩
  · rcases htb : tryBody w cfg wiz fv (initSt c) with ⟨s, e | rv⟩
    · simp [executeWizard, htb, hclient]
    · rcases rv with ⟨results, finalShot⟩
      simp [executeWizard, htb, hclient]
  · intro w2 s hb
    unfold closeBrowserFn
    simp only [hb, if_true]
    cases h1 : w2.outcome s.trace.length Action.closeBrowser with
    | some e => simp [act_of_err h1, withTrace]
    | none =>
      rw [bindE_ok (act_of_ok h1)]
      by_cases hp : (withTrace s [Action.closeBrowser]).client.playwrightOpen = true
      · simp only [hp, if_true]
        simp [act_fst, withTrace]
      · simp only [hp, if_false]
        simp [withTrace]
  · intro w2 s hb hp
    unfold closeBrowserFn
    simp only [hb, hp, if_false, if_true]
    simp [act_fst, withTrace]

/-! ## Concrete inputs for witnesses -/

/-- A world in which every primitive succeeds. -/
def wC : World :=
  { outcome := fun _ _ => none, shot := fun _ => "shotdata", pageUrl := "https://x.gov/done",
    pageTitle := "Done", bodyText := "Results body" }

def cfgC : Config := { headless := false, saveScreenshots := false }

def fldC : FieldStructure :=
  { field_id := "dob_month", selector := "#dob", field_type := FieldType.text,
    interaction := InteractionType.fill, required := true, sub_fields := [],
    add_button_selector := none }

def pgC : PageStructure :=
  { page_number := 1, page_title := "Personal", fields := [fldC],
    continue_button := { selector := "#continue", selector_type := SelectorType.css } }

def wizC : WizardStructure :=
  { wizard_id := "fsa-estimator", url := "https://x.gov/wizard", total_pages := 1,
    start_action := none, pages := [pgC] }

def fvC : FieldValues := fun sel => if sel = "#dob" then some (Value.prim "05") else none

lemma wC_allSuccess : allSuccess wC := fun _ _ => rfl

lemma wizC_valid : validWizard wizC := by
  refine ⟨rfl, ?_⟩
  intro p hp f hf hg
  simp [wizC] at hp
  subst hp
  simp [pgC] at hf
  subst hf
  simp [fldC] at hg

lemma fvC_covers : coversRequired fvC wizC := by
  intro p hp f hf _
  simp [wizC] at hp
  subst hp
  simp [pgC] at hf
  subst hf
  rfl

lemma fvC_wellFormed : wellFormedGroupValues fvC wizC := by
  intro p hp f hf hg
  simp [wizC] at hp
  subst hp
  simp [pgC] at hf
  subst hf
  simp [fldC] at hg

/-- Witness for C1 at a concrete wizard, value map and all-success world. -/
theorem C1_success_all_pages_witness :
    (executeWizard wC cfgC wizC fvC closedClient).1.success = true ∧
    (executeWizard wC cfgC wizC fvC closedClient).1.pages_completed = wizC.total_pages :=
  ⟨(C1_success_all_pages wC cfgC wizC fvC closedClient wC_allSuccess wizC_valid
      fvC_covers fvC_wellFormed).1,
   (C1_success_all_pages wC cfgC wizC fvC closedClient wC_allSuccess wizC_valid
      fvC_covers fvC_wellFormed).2.1⟩

/-- A client state still holding all four handles. -/
def stAllOpen : EngineSt :=
  { client := allOpen, trace := [], screenshots := [], pagesCompleted := 0 }

/-- A client state holding only the playwright handle. -/
def pwOnlyClient : Client :=
  { playwrightOpen := true, browserOpen := false, contextOpen := false, pageOpen := false }

def stOnlyPw : EngineSt :=
  { client := pwOnlyClient, trace := [], screenshots := [], pagesCompleted := 0 }

/-- Witness for C2 at concrete inputs. -/
theorem C2_always_closed_witness :
    (executeWizard wC cfgC wizC fvC allOpen).2.client = closedClient ∧
    Action.closeBrowser ∈ (closeBrowserFn wC stAllOpen).trace ∧
    Action.stopPlaywright ∈ (closeBrowserFn wC stOnlyPw).trace :=
  ⟨(C2_always_closed wC cfgC wizC fvC allOpen).1,
   (C2_always_closed wC cfgC wizC fvC allOpen).2.2.1 wC stAllOpen (by rfl),
   (C2_always_closed wC cfgC wizC fvC allOpen).2.2.2 wC stOnlyPw (by rfl) (by rfl)⟩

/-! ## Failure-path lemmas -/

lemma shotLabels_append (t1 t2 : List Action) :
    shotLabels (t1 ++ t2) = shotLabels t1 ++ shotLabels t2 := by
  simp [shotLabels]

lemma closeBrowserFn_shotLabels (w : World) (s : EngineSt) :
    shotLabels (closeBrowserFn w s).trace = shotLabels s.trace := by
  unfold closeBrowserFn
  by_cases hb : s.client.browserOpen = true
  · simp only [hb, if_true]
    cases h1 : w.outcome s.trace.length Action.closeBrowser with
    | some e => simp [act_of_err h1, withTrace, shotLabels_append, shotLabels]
    | none =>
      rw [bindE_ok (act_of_ok h1)]
      by_cases hp : (withTrace s [Action.closeBrowser]).client.playwrightOpen = true
      · simp only [hp, if_true]
        simp [act_fst, withTrace, shotLabels_append, shotLabels]
      · simp only [hp, if_false]
        simp [withTrace, shotLabels_append, shotLabels]
  · simp only [hb, if_false]
    by_cases hp : s.client.playwrightOpen = true
    · simp only [hp, if_true]
      simp [hb, act_fst, withTrace, shotLabels_append, shotLabels]
    · simp [hb, hp]

/-- The failure branch of `execute_wizard_atomically`: whatever exception
ends the try block, the failure record reports it together with
`pages_completed` at the time of failure, and — when a page handle
exists — exactly one additional screenshot attempt, labelled "error",
happens before cleanup, and the reported screenshot list is non-empty. -/
lemma executeWizard_err {w : World} {cfg : Config} {wiz : WizardStructure}
    {fv : FieldValues} {c : Client} {s : EngineSt} {e : PyErr}
    (hTB : tryBody w cfg wiz fv (initSt c) = (s, Except.error e)) :
    (executeWizard w cfg wiz fv c).1.success = false ∧
    (executeWizard w cfg wiz fv c).1.error = some e.msg ∧
    (executeWizard w cfg wiz fv c).1.error_type = some e.ty ∧
    (executeWizard w cfg wiz fv c).1.pages_completed = s.pagesCompleted ∧
    (s.client.pageOpen = true →
      shotLabels (executeWizard w cfg wiz fv c).2.trace = shotLabels s.trace ++ ["error"] ∧
      (executeWizard w cfg wiz fv c).1.screenshots ≠ []) := by
  obtain ⟨extE, bE, hshot, hlab⟩ := takeScreenshot_spec w cfg "error" s
  by_cases hpo : s.client.pageOpen = true
  · have hres : executeWizard w cfg wiz fv c =
        ({ success := false, wizard_id := none, results := none,
           error := some e.msg, error_type := some e.ty,
           screenshots :=
             if cfg.headless then
               match (s.screenshots ++ [bE]).getLast? with
               | some last => [last]
               | none => s.screenshots ++ [bE]
             else s.screenshots ++ [bE],
           pages_completed := s.pagesCompleted },
         closeBrowserFn w { withTrace s extE with
           screenshots := (withTrace s extE).screenshots ++ [bE] }) := by
      unfold executeWizard
      rw [hTB]
      simp [hpo, hshot, withTrace]
    refine ⟨by simp [hres], by simp [hres], by simp [hres], by simp [hres], fun _ => ⟨?_, ?_⟩⟩
    · rw [hres]
      simp only []
      rw [closeBrowserFn_shotLabels]
      simp [withTrace, shotLabels_append, hlab]
    · rw [hres]
      simp only []
      by_cases hh : cfg.headless = true
      · simp [hh]
      · simp [hh]
  · have hres : executeWizard w cfg wiz fv c =
        ({ success := false, wizard_id := none, results := none,
           error := some e.msg, error_type := some e.ty,
           screenshots :=
             if cfg.headless then
               match s.screenshots.getLast? with
               | some last => [last]
               | none => s.screenshots
             else s.screenshots,
           pages_completed := s.pagesCompleted },
         closeBrowserFn w s) := by
      unfold executeWizard
      rw [hTB]
      simp [hpo]
    refine ⟨by simp [hres], by simp [hres], by simp [hres], by simp [hres], fun hcontra => ?_⟩
    exact absurd hcontra hpo

lemma fillPageFields_missing {w : World} {fv : FieldValues} {f : FieldStructure}
    (hreq : f.required = true) (hmiss : fv f.selector = none) :
    ∀ (fpre : List FieldStructure) (fpost : List FieldStructure) (s : EngineSt),
      okFrom w s.trace.length → (∀ g ∈ fpre, fieldReady fv g) →
      ∃ ext, fillPageFields w fv (fpre ++ f :: fpost) s =
        (advSt s ext [] 0,
         Except.error (valueError (missingRequiredMsg f.field_id f.selector))) := by
  intro fpre
  induction fpre with
  | nil =>
    intro fpost s hw _
    exact ⟨[], by simp [fillPageFields, hmiss, hreq]⟩
  | cons g rest ih =>
    intro fpost s hw hready
    have hg : fieldReady fv g := hready g (by simp)
    cases hv : fv g.selector with
    | none =>
      cases hgreq : g.required with
      | true =>
        have := hg.1 hgreq
        rw [hv] at this
        simp at this
      | false =>
        obtain ⟨ext, h⟩ := ih fpost s hw (fun x hx => hready x (by simp [hx]))
        exact ⟨ext, by simp [fillPageFields, hv, hgreq, h]⟩
    | some v =>
      have hgr : g.field_type = FieldType.group →
          (∃ ab, g.add_button_selector = some ab ∧ ab ≠ "") ∧
          ∀ items, v = Value.vlist items → ∀ it ∈ items, ∃ d, it = Value.vdict d := by
        intro hgt
        refine ⟨(hg.2 hgt).1, fun items hvi it hit => ?_⟩
        exact (hg.2 hgt).2 items (by rw [← hvi]; exact hv) it hit
      obtain ⟨e1, h1⟩ := fillField_ok v hw hgr
      have h2 : act w (Action.waitTimeout 300) (advSt s e1 [] 0) =
          (advSt (advSt s e1 [] 0) [Action.waitTimeout 300] [] 0, Except.ok ()) :=
        act_okA _ (okFrom_advSt _ _ _ hw) rfl
      obtain ⟨e3, h3⟩ := ih fpost (advSt (advSt s e1 [] 0) [Action.waitTimeout 300] [] 0)
        (okFrom_advSt _ _ _ (okFrom_advSt _ _ _ hw))
        (fun x hx => hready x (by simp [hx]))
      refine ⟨e1 ++ [Action.waitTimeout 300] ++ e3, ?_⟩
      rw [show fillPageFields w fv ((g :: rest) ++ f :: fpost) s =
          (bindE (fillField w g v s) fun _ s1 =>
           bindE (act w (Action.waitTimeout 300) s1) fun _ s2 =>
           fillPageFields w fv (rest ++ f :: fpost) s2) from by
        simp [fillPageFields, hv]]
      rw [bindE_ok h1, bindE_ok h2, h3, advSt_advSt, advSt_advSt]
      simp

lemma runPage_missing {w : World} {cfg : Config} {fv : FieldValues} {pk : PageStructure}
    {f : FieldStructure} {fpre fpost : List FieldStructure}
    (hfields : pk.fields = fpre ++ f :: fpost)
    (hreq : f.required = true) (hmiss : fv f.selector = none)
    (hfpre : ∀ g ∈ fpre, fieldReady fv g) :
    ∀ (s : EngineSt), okFrom w s.trace.length →
      ∃ ext, runPage w cfg fv pk s =
        (advSt s ext [] 0,
         Except.error (valueError (missingRequiredMsg f.field_id f.selector))) := by
  intro s hw
  obtain ⟨ext, h⟩ := fillPageFields_missing hreq hmiss fpre fpost s hw hfpre
  refine ⟨ext, ?_⟩
  unfold runPage
  rw [hfields, h]
  simp

lemma pageLoop_err {w : World} {cfg : Config} {fv : FieldValues} {pk : PageStructure}
    {post : List PageStructure} {msg : PyErr}
    (hrp : ∀ (s : EngineSt), okFrom w s.trace.length →
      ∃ ext, runPage w cfg fv pk s = (advSt s ext [] 0, Except.error msg)) :
    ∀ (pre : List PageStructure) (s : EngineSt), okFrom w s.trace.length →
      (∀ p ∈ pre, ∀ g ∈ p.fields, fieldReady fv g) →
      ∃ ext shots, pageLoop w cfg fv (pre ++ pk :: post) s =
        (advSt s ext shots pre.length, Except.error msg) := by
  intro pre
  induction pre with
  | nil =>
    intro s hw _
    obtain ⟨ext, h⟩ := hrp s hw
    refine ⟨ext, [], ?_⟩
    rw [show ([] : List PageStructure) ++ pk :: post = pk :: post from rfl]
    unfold pageLoop
    rw [h]
    simp [advSt]
  | cons p rest ih =>
    intro s hw hready
    obtain ⟨e1, b1, h1⟩ := runPage_ok cfg p hw (hready p (by simp))
    have hinc : ({ advSt s e1 [b1] 0 with
        pagesCompleted := (advSt s e1 [b1] 0).pagesCompleted + 1 } : EngineSt) =
        advSt s e1 [b1] 1 := by
      simp [advSt]
    obtain ⟨e2, sh2, h2⟩ := ih (advSt s e1 [b1] 1) (okFrom_advSt _ _ _ hw)
      (fun q hq => hready q (by simp [hq]))
    refine ⟨e1 ++ e2, [b1] ++ sh2, ?_⟩
    rw [show (p :: rest) ++ pk :: post = p :: (rest ++ pk :: post) from rfl]
    unfold pageLoop
    rw [bindE_ok h1, hinc, h2, advSt_advSt]
    simp [Nat.add_comm]

lemma afterNav_err {w : World} {fv : FieldValues} (cfg : Config) (wiz : WizardStructure)
    {K : Nat} {msg : PyErr}
    (hploop : ∀ (s : EngineSt), okFrom w s.trace.length →
      ∃ ext shots, pageLoop w cfg fv wiz.pages s = (advSt s ext shots K, Except.error msg)) :
    ∀ (s : EngineSt), okFrom w s.trace.length →
      ∃ ext shots, afterNav w cfg wiz fv s = (advSt s ext shots K, Except.error msg) := by
  intro s hw
  unfold afterNav
  rw [bindE_ok (act_okA (Action.waitTimeout 1000) hw rfl)]
  simp only []
  obtain ⟨e1, b1, h1, -⟩ := takeScreenshot_specA w cfg "initial_page"
    (advSt s [Action.waitTimeout 1000] [] 0)
  simp only [h1]
  have hS2 : ({ advSt (advSt s [Action.waitTimeout 1000] [] 0) e1 [] 0 with
      screenshots :=
        (advSt (advSt s [Action.waitTimeout 1000] [] 0) e1 [] 0).screenshots ++ [b1] } :
        EngineSt) =
      advSt s ([Action.waitTimeout 1000] ++ e1) [b1] 0 := by
    simp [advSt]
  rw [hS2]
  obtain ⟨e2, sh2, h2⟩ := startActionStep_ok cfg wiz.start_action
    (okFrom_advSt ([Action.waitTimeout 1000] ++ e1) [b1] 0 hw)
  rw [bindE_ok h2, advSt_advSt]
  simp only [Nat.add_zero]
  obtain ⟨e3, sh3, h3⟩ := hploop
    (advSt s (([Action.waitTimeout 1000] ++ e1) ++ e2) ([b1] ++ sh2) 0)
    (okFrom_advSt _ _ _ hw)
  rw [h3]
  refine ⟨(([Action.waitTimeout 1000] ++ e1) ++ e2) ++ e3, ([b1] ++ sh2) ++ sh3, ?_⟩
  rw [advSt_advSt]
  simp

lemma tryBody_err {w : World} {fv : FieldValues} (cfg : Config) (wiz : WizardStructure)
    {K : Nat} {msg : PyErr}
    (hploop : ∀ (s : EngineSt), okFrom w s.trace.length →
      ∃ ext shots, pageLoop w cfg fv wiz.pages s = (advSt s ext shots K, Except.error msg)) :
    ∀ (s : EngineSt), okFrom w s.trace.length →
      ∃ ext shots, tryBody w cfg wiz fv s =
        ({ advSt s ext shots K with client := allOpen }, Except.error msg) := by
  intro s hw
  unfold tryBody
  rw [bindE_ok (launchBrowserFn_ok cfg hw)]
  have hwL : okFrom w (({ withTrace s [Action.startPlaywright,
      Action.launchBrowser cfg.headless, Action.newContext, Action.newPage] with
      client := allOpen } : EngineSt)).trace.length :=
    okFrom_withTrace _ hw
  rw [bindE_ok (navRetry_ok_first wiz.url hwL)]
  obtain ⟨ext, shots, hAN⟩ := afterNav_err cfg wiz hploop _
    (okFrom_advSt [Action.goto wiz.url 20000] [] 0 hwL)
  rw [hAN]
  refine ⟨[Action.startPlaywright, Action.launchBrowser cfg.headless, Action.newContext,
    Action.newPage] ++ [Action.goto wiz.url 20000] ++ ext, shots, ?_⟩
  rw [Prod.ext_iff]
  refine ⟨?_, rfl⟩
  simp [advSt, withTrace, List.append_assoc, allOpen]

/-- Claim C3: if a required field on page `k` has no supplied value (all earlier
pages and earlier fields of page `k` being well supplied and every
interaction succeeding), the run fails with the `ValueError` whose message
names the field's `field_id` and selector, and the failure record carries
`pages_completed = k - 1`. -/
theorem C3_missing_required_field (w : World) (cfg : Config) (wiz : WizardStructure)
    (fv : FieldValues) (c : Client) (pre post : List PageStructure) (pk : PageStructure)
    (fpre fpost : List FieldStructure) (f : FieldStructure) (k : Nat)
    (hall : allSuccess w)
    (hpages : wiz.pages = pre ++ pk :: post)
    (hfields : pk.fields = fpre ++ f :: fpost)
    (hk : k = pre.length + 1)
    (hreq : f.required = true)
    (hmiss : fv f.selector = none)
    (hpre : ∀ p ∈ pre, ∀ g ∈ p.fields, fieldReady fv g)
    (hfpre : ∀ g ∈ fpre, fieldReady fv g) :
    (executeWizard w cfg wiz fv c).1.success = false ∧
    (executeWizard w cfg wiz fv c).1.pages_completed = k - 1 ∧
    (executeWizard w cfg wiz fv c).1.error =
      some (missingRequiredMsg f.field_id f.selector) ∧
    (executeWizard w cfg wiz fv c).1.error_type = some "ValueError" := by
  have hploop : ∀ (s : EngineSt), okFrom w s.trace.length →
      ∃ ext shots, pageLoop w cfg fv wiz.pages s =
        (advSt s ext shots pre.length,
         Except.error (valueError (missingRequiredMsg f.field_id f.selector))) := by
    intro s hw
    rw [hpages]
    exact pageLoop_err (runPage_missing hfields hreq hmiss hfpre) pre s hw hpre
  obtain ⟨ext, shots, hTB⟩ := tryBody_err cfg wiz hploop (initSt c)
    (fun n a _ _ => hall n a)
  obtain ⟨h1, h2, h3, h4, -⟩ := executeWizard_err hTB
  refine ⟨h1, ?_, ?_, ?_⟩
  · rw [h4]
    simp [advSt, initSt]
    omega
  · rw [h2]
    rfl
  · rw [h3]
    rfl

/-! ## Concrete inputs for the C3 witness: two pages, the required field on
page 2 left unsupplied. -/

def fld1C : FieldStructure :=
  { field_id := "income", selector := "#income", field_type := FieldType.text,
    interaction := InteractionType.fill, required := true, sub_fields := [],
    add_button_selector := none }

def fld2C : FieldStructure :=
  { field_id := "household_size", selector := "#household", field_type := FieldType.number,
    interaction := InteractionType.fill, required := true, sub_fields := [],
    add_button_selector := none }

def pg1C : PageStructure :=
  { page_number := 1, page_title := "Income", fields := [fld1C],
    continue_button := { selector := "#next1", selector_type := SelectorType.css } }

def pg2C : PageStructure :=
  { page_number := 2, page_title := "Household", fields := [fld2C],
    continue_button := { selector := "#next2", selector_type := SelectorType.css } }

def wiz3C : WizardStructure :=
  { wizard_id := "fsa-two-pages", url := "https://x.gov/wizard", total_pages := 2,
    start_action := none, pages := [pg1C, pg2C] }

def fv3C : FieldValues := fun sel => if sel = "#income" then some (Value.prim "50000") else none

lemma fv3C_pre_ready : ∀ p ∈ [pg1C], ∀ g ∈ p.fields, fieldReady fv3C g := by
  intro p hp g hg
  simp at hp
  subst hp
  simp [pg1C] at hg
  subst hg
  exact ⟨fun _ => rfl, fun hgr => by simp [fld1C] at hgr⟩

/-- Witness for C3: the required field on page 2 has no supplied value;
the run fails with `pages_completed = 1` and the naming error. -/
theorem C3_missing_required_field_witness :
    (executeWizard wC cfgC wiz3C fv3C closedClient).1.success = false ∧
    (executeWizard wC cfgC wiz3C fv3C closedClient).1.pages_completed = 2 - 1 ∧
    (executeWizard wC cfgC wiz3C fv3C closedClient).1.error =
      some (missingRequiredMsg fld2C.field_id fld2C.selector) ∧
    (executeWizard wC cfgC wiz3C fv3C closedClient).1.error_type = some "ValueError" :=
  C3_missing_required_field wC cfgC wiz3C fv3C closedClient [pg1C] [] pg2C [] [] fld2C 2
    wC_allSuccess rfl rfl rfl rfl rfl fv3C_pre_ready (by intro g hg; simp at hg)

/-! ## Navigation retry lemmas -/

lemma gotoCount_append (t1 t2 : List Action) :
    gotoCount (t1 ++ t2) = gotoCount t1 + gotoCount t2 := by
  simp [gotoCount]

lemma navAttemptStep_bound (w : World) (url : String) (first : Bool) (s : EngineSt) :
    gotoCount ((navAttemptStep w url first s).1.trace) ≤ gotoCount s.trace + 1 := by
  cases first with
  | true =>
    simp [navAttemptStep, act_fst, withTrace, gotoCount_append, gotoCount, isGoto]
  | false =>
    cases h1 : w.outcome s.trace.length (Action.waitTimeout 2000) with
    | some e =>
      simp [navAttemptStep, act_of_err h1, withTrace, gotoCount_append, gotoCount, isGoto]
    | none =>
      simp only [navAttemptStep, Bool.false_eq_true, if_false]
      rw [bindE_ok (act_of_ok h1)]
      simp [act_fst, withTrace, gotoCount_append, gotoCount, isGoto]

lemma navLoop_eq (w : World) (url : String) (first : Bool) (remaining : Nat) (s : EngineSt) :
    navLoop w url first remaining s =
      match navAttemptStep w url first s with
      | (s1, Except.ok _) => (s1, Except.ok ())
      | (s1, Except.error e) =>
        match remaining with
        | 0 => (s1, Except.error e)
        | Nat.succ r => navLoop w url false r s1 := by
  rw [navLoop.eq_def]

lemma navLoop_bound (w : World) (url : String) :
    ∀ (remaining : Nat) (first : Bool) (s : EngineSt),
      gotoCount ((navLoop w url first remaining s).1.trace) ≤
        gotoCount s.trace + remaining + 1 := by
  intro remaining
  induction remaining with
  | zero =>
    intro first s
    have hb := navAttemptStep_bound w url first s
    rcases hx : navAttemptStep w url first s with ⟨s1, r⟩
    rw [hx] at hb
    cases r with
    | ok a => simpa [navLoop, hx] using hb
    | error e => simpa [navLoop, hx] using hb
  | succ r ih =>
    intro first s
    have hb := navAttemptStep_bound w url first s
    rcases hx : navAttemptStep w url first s with ⟨s1, rr⟩
    rw [hx] at hb
    simp at hb
    cases rr with
    | ok a =>
      rw [show navLoop w url first (r + 1) s = (s1, Except.ok ()) from by
        rw [navLoop_eq, hx]]
      simp
      omega
    | error e =>
      rw [show navLoop w url first (r + 1) s = navLoop w url false r s1 from by
        rw [navLoop_eq, hx]]
      have := ih false s1
      omega

/-- State after a successful `_launch_browser` from a fresh call. -/
def postLaunchSt (cfg : Config) : EngineSt :=
  { client := allOpen,
    trace := [Action.startPlaywright, Action.launchBrowser cfg.headless,
      Action.newContext, Action.newPage],
    screenshots := [], pagesCompleted := 0 }

/-- State after a first navigation failure followed by a successful retry. -/
def postNavRetrySt (cfg : Config) (url : String) : EngineSt :=
  { client := allOpen,
    trace := [Action.startPlaywright, Action.launchBrowser cfg.headless,
      Action.newContext, Action.newPage, Action.goto url 20000,
      Action.waitTimeout 2000, Action.goto url 20000],
    screenshots := [], pagesCompleted := 0 }

/-- State after all five navigation attempts have failed. -/
def navFailSt (cfg : Config) (url : String) : EngineSt :=
  { client := allOpen,
    trace := [Action.startPlaywright, Action.launchBrowser cfg.headless,
      Action.newContext, Action.newPage,
      Action.goto url 20000, Action.waitTimeout 2000,
      Action.goto url 20000, Action.waitTimeout 2000,
      Action.goto url 20000, Action.waitTimeout 2000,
      Action.goto url 20000, Action.waitTimeout 2000,
      Action.goto url 20000],
    screenshots := [], pagesCompleted := 0 }

/-- Claim C4: navigation performs at most 5 `goto` attempts (each with the 20s
per-attempt timeout, separated by the fixed 2s delay); a run whose first
navigation attempt fails but whose second succeeds is still an overall
success with all pages completed; and when every attempt fails, the run
fails carrying the error of the last (fifth, position 12) attempt, with
exactly five `goto` attempts in the trace and `pages_completed = 0`. -/
theorem C4_navigation_retry :
    (∀ (w : World) (url : String) (s : EngineSt),
      gotoCount ((navRetry w url s).1.trace) ≤ gotoCount s.trace + 5) ∧
    (∀ (w : World) (cfg : Config) (wiz : WizardStructure) (fv : FieldValues) (c : Client)
      (e : PyErr), validWizard wiz → coversRequired fv wiz → wellFormedGroupValues fv wiz →
      (∀ n a, n ≠ 4 → w.outcome n a = none) →
      w.outcome 4 (Action.goto wiz.url 20000) = some e →
      (executeWizard w cfg wiz fv c).1.success = true ∧
      (executeWizard w cfg wiz fv c).1.pages_completed = wiz.total_pages) ∧
    (∀ (w : World) (cfg : Config) (wiz : WizardStructure) (fv : FieldValues) (c : Client)
      (errF : Nat → PyErr),
      (∀ n a, isGoto a = false → w.outcome n a = none) →
      (∀ n, w.outcome n (Action.goto wiz.url 20000) = some (errF n)) →
      tryBody w cfg wiz fv (initSt c) =
        (navFailSt cfg wiz.url, Except.error (errF 12)) ∧
      gotoCount (navFailSt cfg wiz.url).trace = 5 ∧
      (executeWizard w cfg wiz fv c).1.success = false ∧
      (executeWizard w cfg wiz fv c).1.error = some (errF 12).msg ∧
      (executeWizard w cfg wiz fv c).1.error_type = some (errF 12).ty ∧
      (executeWizard w cfg wiz fv c).1.pages_completed = 0) := by
  refine ⟨?_, ?_, ?_⟩
  · intro w url s
    have := navLoop_bound w url 4 true s
    simpa [navRetry] using this
  · intro w cfg wiz fv c e hv hreq hwf hno4 h4
    have e0 : w.outcome 0 Action.startPlaywright = none := hno4 0 _ (by omega)
    have e1 : w.outcome 1 (Action.launchBrowser cfg.headless) = none := hno4 1 _ (by omega)
    have e2 : w.outcome 2 Action.newContext = none := hno4 2 _ (by omega)
    have e3 : w.outcome 3 Action.newPage = none := hno4 3 _ (by omega)
    have e5 : w.outcome 5 (Action.waitTimeout 2000) = none := hno4 5 _ (by omega)
    have e6 : w.outcome 6 (Action.goto wiz.url 20000) = none := hno4 6 _ (by omega)
    have hlaunch : launchBrowserFn w cfg (initSt c) = (postLaunchSt cfg, Except.ok ()) := by
      simp [launchBrowserFn, act, initSt, withTrace, e0, e1, e2, e3, postLaunchSt, allOpen]
    have hnav : navRetry w wiz.url (postLaunchSt cfg) =
        (postNavRetrySt cfg wiz.url, Except.ok ()) := by
      simp [navRetry, navLoop, navAttemptStep, act, withTrace, postLaunchSt,
        postNavRetrySt, h4, e5, e6]
    have hok7 : okFrom w (postNavRetrySt cfg wiz.url).trace.length := by
      intro n a hn ha
      refine hno4 n a ?_
      simp [postNavRetrySt] at hn
      omega
    obtain ⟨ext, shots, r, b, hAN, -, -⟩ := afterNav_core cfg wiz hok7
      (fieldReady_of_hyps hv hreq hwf)
    have hTB : tryBody w cfg wiz fv (initSt c) =
        (advSt (postNavRetrySt cfg wiz.url) ext shots wiz.pages.length, Except.ok (r, b)) := by
      unfold tryBody
      rw [bindE_ok hlaunch, bindE_ok hnav, hAN]
    constructor
    · simp [executeWizard, hTB]
    · unfold executeWizard
      rw [hTB]
      simp [advSt, postNavRetrySt, hv.1]
  · intro w cfg wiz fv c errF hother hgoto
    have e0 : w.outcome 0 Action.startPlaywright = none := hother 0 _ rfl
    have e1 : w.outcome 1 (Action.launchBrowser cfg.headless) = none := hother 1 _ rfl
    have e2 : w.outcome 2 Action.newContext = none := hother 2 _ rfl
    have e3 : w.outcome 3 Action.newPage = none := hother 3 _ rfl
    have hlaunch : launchBrowserFn w cfg (initSt c) = (postLaunchSt cfg, Except.ok ()) := by
      simp [launchBrowserFn, act, initSt, withTrace, e0, e1, e2, e3, postLaunchSt, allOpen]
    have hwaits : ∀ n, w.outcome n (Action.waitTimeout 2000) = none :=
      fun n => hother n _ rfl
    have hnav : navRetry w wiz.url (postLaunchSt cfg) =
        (navFailSt cfg wiz.url, Except.error (errF 12)) := by
      simp [navRetry, navLoop, navAttemptStep, act, withTrace, postLaunchSt,
        navFailSt, hgoto, hwaits]
    have hTB : tryBody w cfg wiz fv (initSt c) =
        (navFailSt cfg wiz.url, Except.error (errF 12)) := by
      unfold tryBody
      rw [bindE_ok hlaunch, hnav]
      simp
    obtain ⟨h1, h2, h3, h4p, -⟩ := executeWizard_err hTB
    refine ⟨hTB, by simp [navFailSt, gotoCount, isGoto], h1, h2, h3, ?_⟩
    rw [h4p]
    simp [navFailSt]

/-- A world whose only failure is the first navigation attempt (primitive
call position 4). -/
def wNav1 : World :=
  { outcome := fun n a =>
      if n = 4 then
        match a with
        | Action.goto _ _ => some { ty := "TimeoutError", msg := "navigation timeout" }
        | _ => none
      else none,
    shot := fun _ => "shotdata", pageUrl := "https://x.gov/done", pageTitle := "Done",
    bodyText := "Results body" }

/-- A world in which every navigation attempt fails (with an error naming
its call position) and everything else succeeds. -/
def wNavAll : World :=
  { outcome := fun n a =>
      match a with
      | Action.goto _ _ => some { ty := "TimeoutError", msg := "t" ++ toString n }
      | _ => none,
    shot := fun _ => "shotdata", pageUrl := "https://x.gov/done", pageTitle := "Done",
    bodyText := "Results body" }

def errFC : Nat → PyErr := fun n => { ty := "TimeoutError", msg := "t" ++ toString n }

lemma wNav1_no4 : ∀ n a, n ≠ 4 → wNav1.outcome n a = none := by
  intro n a h
  simp [wNav1, h]

lemma wNavAll_other : ∀ n a, isGoto a = false → wNavAll.outcome n a = none := by
  intro n a ha
  cases a <;> simp_all [wNavAll, isGoto]

/-- Witness for C4 at concrete worlds: the retry bound, a run that
succeeds on the second navigation attempt, and a run whose five
navigation attempts all fail and surface the last error. -/
theorem C4_navigation_retry_witness :
    gotoCount ((navRetry wC "https://x.gov/wizard" (initSt closedClient)).1.trace) ≤
      gotoCount (initSt closedClient).trace + 5 ∧
    (executeWizard wNav1 cfgC wizC fvC closedClient).1.success = true ∧
    (executeWizard wNavAll cfgC wizC fvC closedClient).1.success = false ∧
    (executeWizard wNavAll cfgC wizC fvC closedClient).1.error = some (errFC 12).msg :=
  ⟨C4_navigation_retry.1 wC "https://x.gov/wizard" (initSt closedClient),
   (C4_navigation_retry.2.1 wNav1 cfgC wizC fvC closedClient
     { ty := "TimeoutError", msg := "navigation timeout" }
     wizC_valid fvC_covers fvC_wellFormed wNav1_no4 rfl).1,
   (C4_navigation_retry.2.2 wNavAll cfgC wizC fvC closedClient errFC
     wNavAll_other (fun n => rfl)).2.2.1,
   (C4_navigation_retry.2.2 wNavAll cfgC wizC fvC closedClient errFC
     wNavAll_other (fun n => rfl)).2.2.2.1⟩

/-- Claim C5: dropdown selection tries exactly the ordered strategy list —
(1) the value as given, (2) the value with the ASCII apostrophe replaced
by the Unicode right single quote, (3) label match with the original
text, (4) label match with the Unicode substitution — each as a 5-second
primitive; the first success short-circuits the rest; when all four fail
the last error is raised, which the scalar fill path wraps into the
`ValueError` naming field and selector.  Conjunct (2) is the live-Unicode
scenario: when the literal value fails and the Unicode-substituted value
is accepted, the second strategy succeeds. -/
theorem C5_select_strategy_order (w : World) (sel v : String) (s : EngineSt) :
    (w.outcome s.trace.length (Action.selectValue sel v 5000) = none →
      selectStrategies w sel v s =
        (withTrace s [Action.selectValue sel v 5000], Except.ok ())) ∧
    (∀ e1, w.outcome s.trace.length (Action.selectValue sel v 5000) = some e1 →
      w.outcome (s.trace.length + 1)
        (Action.selectValue sel (toUnicodeApos v) 5000) = none →
      selectStrategies w sel v s =
        (withTrace s [Action.selectValue sel v 5000,
          Action.selectValue sel (toUnicodeApos v) 5000], Except.ok ())) ∧
    (∀ e1 e2, w.outcome s.trace.length (Action.selectValue sel v 5000) = some e1 →
      w.outcome (s.trace.length + 1)
        (Action.selectValue sel (toUnicodeApos v) 5000) = some e2 →
      w.outcome (s.trace.length + 2) (Action.selectLabel sel v 5000) = none →
      selectStrategies w sel v s =
        (withTrace s [Action.selectValue sel v 5000,
          Action.selectValue sel (toUnicodeApos v) 5000,
          Action.selectLabel sel v 5000], Except.ok ())) ∧
    (∀ e1 e2 e3, w.outcome s.trace.length (Action.selectValue sel v 5000) = some e1 →
      w.outcome (s.trace.length + 1)
        (Action.selectValue sel (toUnicodeApos v) 5000) = some e2 →
      w.outcome (s.trace.length + 2) (Action.selectLabel sel v 5000) = some e3 →
      w.outcome (s.trace.length + 3)
        (Action.selectLabel sel (toUnicodeApos v) 5000) = none →
      selectStrategies w sel v s =
        (withTrace s [Action.selectValue sel v 5000,
          Action.selectValue sel (toUnicodeApos v) 5000,
          Action.selectLabel sel v 5000,
          Action.selectLabel sel (toUnicodeApos v) 5000], Except.ok ())) ∧
    (∀ e1 e2 e3 e4, w.outcome s.trace.length (Action.selectValue sel v 5000) = some e1 →
      w.outcome (s.trace.length + 1)
        (Action.selectValue sel (toUnicodeApos v) 5000) = some e2 →
      w.outcome (s.trace.length + 2) (Action.selectLabel sel v 5000) = some e3 →
      w.outcome (s.trace.length + 3)
        (Action.selectLabel sel (toUnicodeApos v) 5000) = some e4 →
      selectStrategies w sel v s =
        (withTrace s [Action.selectValue sel v 5000,
          Action.selectValue sel (toUnicodeApos v) 5000,
          Action.selectLabel sel v 5000,
          Action.selectLabel sel (toUnicodeApos v) 5000], Except.error e4)) ∧
    (∀ (field : FieldStructure) (value : Value) (e1 e2 e3 e4 : PyErr),
      field.interaction = InteractionType.select →
      field.selector = sel → value.toStr = v →
      w.outcome s.trace.length (Action.selectValue sel v 5000) = some e1 →
      w.outcome (s.trace.length + 1)
        (Action.selectValue sel (toUnicodeApos v) 5000) = some e2 →
      w.outcome (s.trace.length + 2) (Action.selectLabel sel v 5000) = some e3 →
      w.outcome (s.trace.length + 3)
        (Action.selectLabel sel (toUnicodeApos v) 5000) = some e4 →
      fillScalar w field value s =
        (withTrace s [Action.selectValue sel v 5000,
          Action.selectValue sel (toUnicodeApos v) 5000,
          Action.selectLabel sel v 5000,
          Action.selectLabel sel (toUnicodeApos v) 5000],
         Except.error (valueError (fillErrMsg field.field_id field.selector e4.msg)))) := by
  refine ⟨?_, ?_, ?_, ?_, ?_, ?_⟩
  · intro h1
    simp [selectStrategies, selectStrategyList, runSelectStrategies, strategyAction,
      act, h1, withTrace]
  · intro e1 h1 h2
    simp [selectStrategies, selectStrategyList, runSelectStrategies, strategyAction,
      act, h1, h2, withTrace]
  · intro e1 e2 h1 h2 h3
    simp [selectStrategies, selectStrategyList, runSelectStrategies, strategyAction,
      act, h1, h2, h3, withTrace]
  · intro e1 e2 e3 h1 h2 h3 h4
    simp [selectStrategies, selectStrategyList, runSelectStrategies, strategyAction,
      act, h1, h2, h3, h4, withTrace]
  · intro e1 e2 e3 e4 h1 h2 h3 h4
    simp [selectStrategies, selectStrategyList, runSelectStrategies, strategyAction,
      act, h1, h2, h3, h4, withTrace]
  · intro field value e1 e2 e3 e4 hint hsel hval h1 h2 h3 h4
    subst hsel
    subst hval
    simp [fillScalar, fillScalarInner, hint, selectStrategies, selectStrategyList,
      runSelectStrategies, strategyAction, act, h1, h2, h3, h4, withTrace]

/-- A world modelling a dropdown whose single live option value uses the
Unicode right single quotation mark: `select_option` by value succeeds
only for the Unicode spelling, and every other primitive succeeds. -/
def wSel : World :=
  { outcome := fun _ a =>
      match a with
      | Action.selectValue _ x _ =>
        if x = "Bachelor’s degree" then none
        else some { ty := "TimeoutError", msg := "no option matched" }
      | _ => none,
    shot := fun _ => "shotdata", pageUrl := "https://x.gov/done", pageTitle := "Done",
    bodyText := "Results body" }

def stEmpty : EngineSt :=
  { client := closedClient, trace := [], screenshots := [], pagesCompleted := 0 }

/-- Witness for C5: the caller-supplied ASCII-apostrophe value fails as
strategy 1 and succeeds as strategy 2 (Unicode substitution). -/
theorem C5_select_strategy_order_witness :
    selectStrategies wSel "#degree" "Bachelor\x27s degree" stEmpty =
      (withTrace stEmpty [Action.selectValue "#degree" "Bachelor\x27s degree" 5000,
        Action.selectValue "#degree" (toUnicodeApos "Bachelor\x27s degree") 5000],
       Except.ok ()) :=
  (C5_select_strategy_order wSel "#degree" "Bachelor\x27s degree" stEmpty).2.1
    { ty := "TimeoutError", msg := "no option matched" }
    (by simp [wSel, stEmpty]) (by simp [wSel, stEmpty, toUnicodeApos])

/-- Whether a Python value is a list. -/
def isListValue : Value → Bool
  | Value.vlist _ => true
  | _ => false

/-- Whether a trace contains any text-matched click (the save control of
group fields is the only text-matched click `_fill_field` performs). -/
def usesClickText (t : List Action) : Bool :=
  t.any fun a =>
    match a with
    | Action.clickText _ => true
    | _ => false

lemma usesClickText_append (t1 t2 : List Action) :
    usesClickText (t1 ++ t2) = (usesClickText t1 || usesClickText t2) := by
  simp [usesClickText]

/-- Claim C6: a group field whose supplied value is the empty list performs no
page interaction at all — `_fill_field` returns with the state unchanged —
and the page loop never raises the missing-required error for it (even
when the field is required): it just performs the usual 300ms pause and
moves on to the remaining fields. -/
theorem C6_empty_group_list (w : World) (fv : FieldValues) (f : FieldStructure)
    (rest : List FieldStructure) (s : EngineSt)
    (hg : f.field_type = FieldType.group)
    (hv : fv f.selector = some (Value.vlist [])) :
    fillField w f (Value.vlist []) s = (s, Except.ok ()) ∧
    fillPageFields w fv (f :: rest) s =
      bindE (act w (Action.waitTimeout 300) s) fun _ s2 =>
        fillPageFields w fv rest s2 := by
  constructor
  · simp [fillField, hg]
  · simp [fillPageFields, hv, fillField, hg, bindE]

/-! Helper lemmas for C10: the scalar dispatch never performs a
text-matched click. -/

lemma runSelectStrategies_noCT (w : World) (sel : String) :
    ∀ (strats : List SelectStrategy) (lastErr : Option PyErr) (s : EngineSt),
      ∃ ext, (runSelectStrategies w sel strats lastErr s).1 = withTrace s ext ∧
        usesClickText ext = false := by
  intro strats
  induction strats with
  | nil =>
    intro lastErr s
    cases lastErr <;> exact ⟨[], by simp [runSelectStrategies], by simp [usesClickText]⟩
  | cons strat rest ih =>
    intro lastErr s
    cases h1 : w.outcome s.trace.length (strategyAction sel strat) with
    | none =>
      refine ⟨[strategyAction sel strat],
        by simp [runSelectStrategies, act, h1, withTrace], ?_⟩
      cases strat <;> simp [usesClickText, strategyAction]
    | some e =>
      obtain ⟨e2, h2, hct⟩ := ih (some e) (withTrace s [strategyAction sel strat])
      rw [withTrace_withTrace] at h2
      refine ⟨[strategyAction sel strat] ++ e2, ?_, ?_⟩
      · rw [show runSelectStrategies w sel (strat :: rest) lastErr s =
            runSelectStrategies w sel rest (some e)
              (withTrace s [strategyAction sel strat]) from by
          simp [runSelectStrategies, act_of_err h1]]
        exact h2
      · rw [usesClickText_append, hct]
        cases strat <;> simp [usesClickText, strategyAction]

lemma fillScalarInner_noCT (w : World) (field : FieldStructure) (v : Value) (s : EngineSt) :
    ∃ ext, (fillScalarInner w field v s).1 = withTrace s ext ∧
      usesClickText ext = false := by
  cases hfi : field.interaction with
  | fill =>
    exact ⟨[Action.fillSel field.selector v.toStr],
      by simp [fillScalarInner, hfi, act_fst], by simp [usesClickText]⟩
  | fill_enter =>
    cases h1 : w.outcome s.trace.length (Action.fillSel field.selector v.toStr) with
    | some e =>
      refine ⟨[Action.fillSel field.selector v.toStr], ?_, by simp [usesClickText]⟩
      simp [fillScalarInner, hfi, act, h1, withTrace]
    | none =>
      cases h2 : w.outcome (s.trace.length + 1) (Action.pressKey field.selector "Enter") with
      | some e =>
        refine ⟨[Action.fillSel field.selector v.toStr,
          Action.pressKey field.selector "Enter"], ?_, by simp [usesClickText]⟩
        simp [fillScalarInner, hfi, act, h1, h2, withTrace]
      | none =>
        cases h3 : w.outcome (s.trace.length + 2) (Action.waitTimeout 500) with
        | some e =>
          refine ⟨[Action.fillSel field.selector v.toStr,
            Action.pressKey field.selector "Enter", Action.waitTimeout 500], ?_,
            by simp [usesClickText]⟩
          simp [fillScalarInner, hfi, act, h1, h2, h3, withTrace]
        | none =>
          refine ⟨[Action.fillSel field.selector v.toStr,
            Action.pressKey field.selector "Enter", Action.waitTimeout 500], ?_,
            by simp [usesClickText]⟩
          simp [fillScalarInner, hfi, act, h1, h2, h3, withTrace]
  | click =>
    exact ⟨[Action.clickSel field.selector],
      by simp [fillScalarInner, hfi, act_fst], by simp [usesClickText]⟩
  | javascript_click =>
    exact ⟨[Action.evalClick field.selector],
      by simp [fillScalarInner, hfi, act_fst], by simp [usesClickText]⟩
  | select =>
    obtain ⟨ext, h, hct⟩ := runSelectStrategies_noCT w field.selector
      (selectStrategyList v.toStr) none s
    exact ⟨ext, by simpa [fillScalarInner, hfi, selectStrategies] using h, hct⟩

lemma fillScalar_noCT (w : World) (field : FieldStructure) (v : Value) (s : EngineSt) :
    usesClickText ((fillScalar w field v s).1.trace) = usesClickText s.trace := by
  obtain ⟨ext, h, hct⟩ := fillScalarInner_noCT w field v s
  rcases hx : fillScalarInner w field v s with ⟨s1, r⟩
  rw [hx] at h
  simp only at h
  cases r with
  | ok a =>
    rw [show fillScalar w field v s = (s1, Except.ok ()) from by simp [fillScalar, hx]]
    simp [h, withTrace, usesClickText_append, hct]
  | error e =>
    rw [show fillScalar w field v s =
        (s1, Except.error (valueError (fillErrMsg field.field_id field.selector e.msg)))
        from by simp [fillScalar, hx]]
    simp [h, withTrace, usesClickText_append, hct]

/-- Claim C10: a group-typed field whose supplied value is not a list bypasses
the group add/fill/save machinery entirely: `_fill_field` behaves exactly
as the scalar dispatch, identically to a field of any other type with the
same value, and performs no text-matched (save-control) click. -/
theorem C10_group_nonlist_scalar_dispatch (w : World) (f : FieldStructure) (v : Value)
    (s : EngineSt) (hnl : isListValue v = false) :
    fillField w f v s = fillScalar w f v s ∧
    (∀ ft : FieldType, fillField w { f with field_type := ft } v s = fillScalar w f v s) ∧
    usesClickText ((fillField w f v s).1.trace) = usesClickText s.trace := by
  have h1 : fillField w f v s = fillScalar w f v s := by
    cases v with
    | prim sv => rfl
    | vdict entries => rfl
    | vlist items => simp [isListValue] at hnl
  refine ⟨h1, ?_, ?_⟩
  · intro ft
    cases v with
    | prim sv => rfl
    | vdict entries => rfl
    | vlist items => simp [isListValue] at hnl
  · rw [h1]
    exact fillScalar_noCT w f v s

/-- A repeatable (group) field for witnesses: one sub-field, an add
button, marked required. -/
def sfAmount : SubField :=
  { field_id := "amount", selector := "#loan-amount", interaction := InteractionType.fill }

def fldG : FieldStructure :=
  { field_id := "loans", selector := "#loans", field_type := FieldType.group,
    interaction := InteractionType.click, required := true, sub_fields := [sfAmount],
    add_button_selector := some "#add-loan" }

def fvG : FieldValues := fun sel => if sel = "#loans" then some (Value.vlist []) else none

/-- Witness for C6: the empty-list group value performs zero interactions
and is not reported missing although the field is required. -/
theorem C6_empty_group_list_witness :
    fillField wC fldG (Value.vlist []) stEmpty = (stEmpty, Except.ok ()) ∧
    fillPageFields wC fvG [fldG] stEmpty =
      bindE (act wC (Action.waitTimeout 300) stEmpty) fun _ s2 =>
        fillPageFields wC fvG [] s2 :=
  C6_empty_group_list wC fvG fldG [] stEmpty rfl (by rfl)

/-- Witness for C10: a dict value on the group field dispatches through
the scalar path, identically to a text-typed field, with no text-matched
click. -/
theorem C10_group_nonlist_scalar_dispatch_witness :
    fillField wC fldG (Value.vdict []) stEmpty = fillScalar wC fldG (Value.vdict []) stEmpty ∧
    fillField wC { fldG with field_type := FieldType.text } (Value.vdict []) stEmpty =
      fillScalar wC fldG (Value.vdict []) stEmpty ∧
    usesClickText ((fillField wC fldG (Value.vdict []) stEmpty).1.trace) =
      usesClickText stEmpty.trace :=
  ⟨(C10_group_nonlist_scalar_dispatch wC fldG (Value.vdict []) stEmpty rfl).1,
   (C10_group_nonlist_scalar_dispatch wC fldG (Value.vdict []) stEmpty rfl).2.1 FieldType.text,
   (C10_group_nonlist_scalar_dispatch wC fldG (Value.vdict []) stEmpty rfl).2.2⟩

/-! ## C7: exact trace of group item processing -/

/-- The primitive the engine performs for one declared sub-field of a
group item (nothing for a missing value or an unsupported interaction
kind; under an all-success world `select` resolves on its first try). -/
def subFieldActions (item : Value) (sf : SubField) : List Action :=
  match dictGet item sf.field_id with
  | Except.error _ => []
  | Except.ok none => []
  | Except.ok (some v) =>
    match sf.interaction with
    | InteractionType.fill => [Action.fillSel sf.selector v.toStr]
    | InteractionType.select => [Action.selectValue sf.selector v.toStr 5000]
    | _ => []

/-- The interaction sequence of one group item: open the entry form via
the declared add button, fill the declared sub-fields in order, then
click the text-matched "Save" control. -/
def itemActions (ab : String) (field : FieldStructure) (item : Value) : List Action :=
  [Action.clickSel ab, Action.waitTimeout 500] ++
    listFlat (subFieldActions item) field.sub_fields ++
    [Action.clickText "Save", Action.waitTimeout 500]

lemma fillOneSubField_okX {w : World} {s : EngineSt} {item : Value} (sf : SubField)
    (hw : okFrom w s.trace.length) (hd : ∃ d, item = Value.vdict d) :
    fillOneSubField w item sf s = (advSt s (subFieldActions item sf) [] 0, Except.ok ()) := by
  obtain ⟨d, rfl⟩ := hd
  cases hv : (d.find? fun p => p.1 == sf.field_id) with
  | none => simp [fillOneSubField, subFieldActions, dictGet, hv]
  | some p =>
    cases hsf : sf.interaction with
    | fill =>
      have e0 : w.outcome s.trace.length (Action.fillSel sf.selector p.2.toStr) = none :=
        hw _ _ (Nat.le_refl _) rfl
      simp [fillOneSubField, subFieldActions, dictGet, hv, hsf, act, e0, advSt]
    | select =>
      have e0 : w.outcome s.trace.length (Action.selectValue sf.selector p.2.toStr 5000) = none :=
        hw _ _ (Nat.le_refl _) rfl
      simp [fillOneSubField, subFieldActions, dictGet, hv, hsf, act, e0, advSt]
    | click => simp [fillOneSubField, subFieldActions, dictGet, hv, hsf]
    | javascript_click => simp [fillOneSubField, subFieldActions, dictGet, hv, hsf]
    | fill_enter => simp [fillOneSubField, subFieldActions, dictGet, hv, hsf]

lemma fillSubFieldsLoop_okX {w : World} {item : Value} (hd : ∃ d, item = Value.vdict d) :
    ∀ (subs : List SubField) (s : EngineSt), okFrom w s.trace.length →
      fillSubFieldsLoop w item subs s =
        (advSt s (listFlat (subFieldActions item) subs) [] 0, Except.ok ()) := by
  intro subs
  induction subs with
  | nil => intro s hw; simp [fillSubFieldsLoop, listFlat]
  | cons sf rest ih =>
    intro s hw
    have h1 := fillOneSubField_okX sf hw hd
    have h2 := ih (advSt s (subFieldActions item sf) [] 0) (okFrom_advSt _ _ _ hw)
    unfold fillSubFieldsLoop
    rw [bindE_ok h1, h2, advSt_advSt]
    simp [listFlat]

lemma fillGroupItem_okX {w : World} {s : EngineSt} {field : FieldStructure} {item : Value}
    {ab : String} (index : Nat) (hw : okFrom w s.trace.length)
    (hab : field.add_button_selector = some ab) (hne : ab ≠ "")
    (hd : ∃ d, item = Value.vdict d) :
    fillGroupItem w field item index s =
      (advSt s (itemActions ab field item) [] 0, Except.ok ()) := by
  have hstep : act w (Action.clickSel ab) s = (advSt s [Action.clickSel ab] [] 0, Except.ok ()) :=
    act_okA _ hw rfl
  have hstep2 : act w (Action.waitTimeout 500) (advSt s [Action.clickSel ab] [] 0) =
      (advSt (advSt s [Action.clickSel ab] [] 0) [Action.waitTimeout 500] [] 0, Except.ok ()) :=
    act_okA _ (okFrom_advSt _ _ _ hw) rfl
  have h3 := fillSubFieldsLoop_okX hd field.sub_fields
    (advSt (advSt s [Action.clickSel ab] [] 0) [Action.waitTimeout 500] [] 0)
    (okFrom_advSt _ _ _ (okFrom_advSt _ _ _ hw))
  have h4 := clickSaveStep_ok field.field_id (index + 1)
    (okFrom_advSt _ _ _ (okFrom_advSt _ _ _ (okFrom_advSt _ _ _ hw)))
    (s := advSt (advSt (advSt s [Action.clickSel ab] [] 0) [Action.waitTimeout 500] [] 0)
      (listFlat (subFieldActions item) field.sub_fields) [] 0)
  unfold fillGroupItem
  rw [hab]
  simp only [hne, if_false]
  rw [bindE_ok hstep, bindE_ok hstep2, bindE_ok h3, h4]
  rw [advSt_advSt, advSt_advSt, advSt_advSt]
  simp [itemActions, advSt, List.append_assoc]

lemma fillGroupLoop_okX {w : World} {field : FieldStructure} {ab : String}
    (hab : field.add_button_selector = some ab) (hne : ab ≠ "") :
    ∀ (items : List Value) (index : Nat) (s : EngineSt), okFrom w s.trace.length →
      (∀ it ∈ items, ∃ d, it = Value.vdict d) →
      fillGroupLoop w field items index s =
        (advSt s (listFlat (itemActions ab field) items) [] 0, Except.ok ()) := by
  intro items
  induction items with
  | nil => intro index s hw _; simp [fillGroupLoop, listFlat]
  | cons item rest ih =>
    intro index s hw hd
    have h1 := fillGroupItem_okX index hw hab hne (hd item (by simp))
    have h2 := ih (index + 1) (advSt s (itemActions ab field item) [] 0)
      (okFrom_advSt _ _ _ hw) (fun it hit => hd it (by simp [hit]))
    unfold fillGroupLoop
    rw [bindE_ok h1, h2, advSt_advSt]
    simp [listFlat]

/-- Claim C7: a group field with a non-empty list value processes each list
element in order as one item — click the declared `add_button_selector`,
wait, fill every declared sub-field by its own interaction kind, then
click the text-matched "Save" control (not a declared selector) — so the
full trace is the concatenation of the per-item sequences; a failing save
step aborts with the `ValueError` naming the item number and the field,
and a failing item aborts the remaining items. -/
theorem C7_group_items_processing (w : World) (field : FieldStructure) (ab : String)
    (items : List Value) (s : EngineSt)
    (hw : okFrom w s.trace.length)
    (hg : field.field_type = FieldType.group)
    (hab : field.add_button_selector = some ab) (hne : ab ≠ "")
    (hnz : items ≠ [])
    (hd : ∀ it ∈ items, ∃ d, it = Value.vdict d) :
    fillField w field (Value.vlist items) s =
      (advSt s (listFlat (itemActions ab field) items) [] 0, Except.ok ()) ∧
    (∀ (w2 : World) (fid : String) (n : Nat) (s2 s3 : EngineSt) (e : PyErr),
      clickSaveStep w2 fid n s2 = (s3, Except.error e) →
      e = valueError (saveErrMsg n fid)) ∧
    (∀ (w2 : World) (f2 : FieldStructure) (item : Value) (rest : List Value)
      (idx : Nat) (s2 s3 : EngineSt) (e : PyErr),
      fillGroupItem w2 f2 item idx s2 = (s3, Except.error e) →
      fillGroupLoop w2 f2 (item :: rest) idx s2 = (s3, Except.error e)) := by
  refine ⟨?_, ?_, ?_⟩
  · have h := fillGroupLoop_okX hab hne items 0 s hw hd
    have hlen : items.length ≠ 0 := by
      cases items with
      | nil => exact absurd rfl hnz
      | cons a l => simp
    simp [fillField, hg, hlen, h]
  · intro w2 fid n s2 s3 e h
    unfold clickSaveStep at h
    rcases hx : bindE (act w2 (Action.clickText "Save") s2) fun _ s1 =>
        act w2 (Action.waitTimeout 500) s1 with ⟨s4, r⟩
    rw [hx] at h
    cases r with
    | ok a => simp at h
    | error e2 =>
      simp at h
      exact h.2.symm
  · intro w2 f2 item rest idx s2 s3 e h
    unfold fillGroupLoop
    rw [h]
    simp

def itemC : Value := Value.vdict [("amount", Value.prim "1500")]

/-- A world whose only failure is the text-matched "Save" click. -/
def wSaveFail : World :=
  { outcome := fun _ a =>
      match a with
      | Action.clickText _ => some { ty := "TimeoutError", msg := "no save control" }
      | _ => none,
    shot := fun _ => "shotdata", pageUrl := "https://x.gov/done", pageTitle := "Done",
    bodyText := "Results body" }

/-- A world whose only failure is any CSS-selector click (the add button). -/
def wAddFail : World :=
  { outcome := fun _ a =>
      match a with
      | Action.clickSel _ => some { ty := "TimeoutError", msg := "no add button" }
      | _ => none,
    shot := fun _ => "shotdata", pageUrl := "https://x.gov/done", pageTitle := "Done",
    bodyText := "Results body" }

/-- Witness for C7: a one-item group fill produces exactly the
add/fill/save sequence; a failing save yields the `ValueError` naming
item number and field; a failing item aborts the loop. -/
theorem C7_group_items_processing_witness :
    fillField wC fldG (Value.vlist [itemC]) stEmpty =
      (advSt stEmpty (listFlat (itemActions "#add-loan" fldG) [itemC]) [] 0, Except.ok ()) ∧
    ({ ty := "ValueError", msg := "Could not save item 1 for field \x27loans\x27" } : PyErr) =
      valueError (saveErrMsg 1 "loans") ∧
    fillGroupLoop wAddFail fldG [itemC] 0 stEmpty =
      (withTrace stEmpty [Action.clickSel "#add-loan"],
       Except.error { ty := "TimeoutError", msg := "no add button" }) :=
  ⟨(C7_group_items_processing wC fldG "#add-loan" [itemC] stEmpty
      (fun _ _ _ _ => rfl) rfl rfl (by decide) (by simp)
      (by intro it hit; simp at hit; subst hit; exact ⟨_, rfl⟩)).1,
   (C7_group_items_processing wC fldG "#add-loan" [itemC] stEmpty
      (fun _ _ _ _ => rfl) rfl rfl (by decide) (by simp)
      (by intro it hit; simp at hit; subst hit; exact ⟨_, rfl⟩)).2.1 wSaveFail "loans" 1
      stEmpty (withTrace stEmpty [Action.clickText "Save"])
      { ty := "ValueError", msg := "Could not save item 1 for field \x27loans\x27" } (by rfl),
   (C7_group_items_processing wC fldG "#add-loan" [itemC] stEmpty
      (fun _ _ _ _ => rfl) rfl rfl (by decide) (by simp)
      (by intro it hit; simp at hit; subst hit; exact ⟨_, rfl⟩)).2.2 wAddFail fldG itemC []
      0 stEmpty (withTrace stEmpty [Action.clickSel "#add-loan"])
      { ty := "TimeoutError", msg := "no add button" } (by rfl)⟩

/-- Claim C8: on any fatal mid-run error (any exception ending the try block
while a page handle exists), the engine attempts exactly one additional
screenshot — labelled "error", its own failure swallowed — and returns a
failure record with the error message and type, `pages_completed` as it
stood at the failure, and a non-empty screenshot list. -/
theorem C8_fatal_error_reporting (w : World) (cfg : Config) (wiz : WizardStructure)
    (fv : FieldValues) (c : Client) (s : EngineSt) (e : PyErr)
    (hTB : tryBody w cfg wiz fv (initSt c) = (s, Except.error e))
    (hpage : s.client.pageOpen = true) :
    (executeWizard w cfg wiz fv c).1.success = false ∧
    (executeWizard w cfg wiz fv c).1.error = some e.msg ∧
    (executeWizard w cfg wiz fv c).1.error_type = some e.ty ∧
    (executeWizard w cfg wiz fv c).1.pages_completed = s.pagesCompleted ∧
    shotLabels (executeWizard w cfg wiz fv c).2.trace = shotLabels s.trace ++ ["error"] ∧
    (executeWizard w cfg wiz fv c).1.screenshots ≠ [] := by
  obtain ⟨h1, h2, h3, h4, h5⟩ := executeWizard_err hTB
  exact ⟨h1, h2, h3, h4, (h5 hpage).1, (h5 hpage).2⟩

/-- Witness for C8: the all-navigation-failures world; `tryBody` ends in
the fifth attempt's error with the page handle open. -/
theorem C8_fatal_error_reporting_witness :
    (executeWizard wNavAll cfgC wizC fvC closedClient).1.success = false ∧
    (executeWizard wNavAll cfgC wizC fvC closedClient).1.error = some (errFC 12).msg ∧
    (executeWizard wNavAll cfgC wizC fvC closedClient).1.pages_completed =
      (navFailSt cfgC wizC.url).pagesCompleted ∧
    shotLabels (executeWizard wNavAll cfgC wizC fvC closedClient).2.trace =
      shotLabels (navFailSt cfgC wizC.url).trace ++ ["error"] ∧
    (executeWizard wNavAll cfgC wizC fvC closedClient).1.screenshots ≠ [] := by
  have h := C8_fatal_error_reporting wNavAll cfgC wizC fvC closedClient
    (navFailSt cfgC wizC.url) (errFC 12) (by rfl) (by rfl)
  exact ⟨h.1, h.2.1, h.2.2.2.1, h.2.2.2.2.1, h.2.2.2.2.2⟩

/-- Claim C9: screenshot and extraction failures are non-fatal.  A failing
screenshot capture yields the empty placeholder (no exception); a run in
which only screenshots or extraction may fail still succeeds; and a run
whose extraction fails still returns `success = true` with the degraded
error-describing payload. -/
theorem C9_nonfatal_screenshot_extraction :
    (∀ (w : World) (cfg : Config) (label : String) (s : EngineSt) (e : PyErr),
      w.outcome s.trace.length (Action.screenshot label) = some e →
      takeScreenshot w cfg label s = (withTrace s [Action.screenshot label], "")) ∧
    (∀ (w : World) (cfg : Config) (wiz : WizardStructure) (fv : FieldValues) (c : Client),
      okFrom w 0 → validWizard wiz → coversRequired fv wiz →
      wellFormedGroupValues fv wiz →
      (executeWizard w cfg wiz fv c).1.success = true) ∧
    (∀ (w : World) (cfg : Config) (wiz : WizardStructure) (fv : FieldValues) (c : Client)
      (e : PyErr), okFrom w 0 → validWizard wiz → coversRequired fv wiz →
      wellFormedGroupValues fv wiz →
      (∀ n, w.outcome n Action.getTitle = some e) →
      (executeWizard w cfg wiz fv c).1.success = true ∧
      (executeWizard w cfg wiz fv c).1.results =
        some (ExtractedResults.degraded e.msg)) := by
  refine ⟨?_, ?_, ?_⟩
  · intro w cfg label s e h
    simp [takeScreenshot, act, h, withTrace]
  · intro w cfg wiz fv c hw hv hreq hwf
    obtain ⟨ext, shots, r, b, hTB, -, -⟩ := tryBody_ok cfg wiz (s := initSt c)
      (okFrom_of_le hw (Nat.zero_le _)) (fieldReady_of_hyps hv hreq hwf)
    simp [executeWizard, hTB]
  · intro w cfg wiz fv c e hw hv hreq hwf htitle
    obtain ⟨ext, shots, r, b, hTB, -, hdeg⟩ := tryBody_ok cfg wiz (s := initSt c)
      (okFrom_of_le hw (Nat.zero_le _)) (fieldReady_of_hyps hv hreq hwf)
    have hr : r = ExtractedResults.degraded e.msg := hdeg e htitle
    subst hr
    exact ⟨by simp [executeWizard, hTB], by simp [executeWizard, hTB]⟩

/-- A world whose only failures are screenshot captures. -/
def wShotFail : World :=
  { outcome := fun _ a =>
      match a with
      | Action.screenshot _ => some { ty := "TimeoutError", msg := "screenshot failed" }
      | _ => none,
    shot := fun _ => "shotdata", pageUrl := "https://x.gov/done", pageTitle := "Done",
    bodyText := "Results body" }

/-- A world whose only failures are `page.title()` calls. -/
def wTitleFail : World :=
  { outcome := fun _ a =>
      match a with
      | Action.getTitle => some { ty := "TimeoutError", msg := "title failed" }
      | _ => none,
    shot := fun _ => "shotdata", pageUrl := "https://x.gov/done", pageTitle := "Done",
    bodyText := "Results body" }

lemma wShotFail_ok : okFrom wShotFail 0 := by
  intro n a _ ha
  cases a <;> simp_all [wShotFail, isAbsorbed]

lemma wTitleFail_ok : okFrom wTitleFail 0 := by
  intro n a _ ha
  cases a <;> simp_all [wTitleFail, isAbsorbed]

/-- Witness for C9 at the two concrete failing worlds. -/
theorem C9_nonfatal_screenshot_extraction_witness :
    takeScreenshot wShotFail cfgC "initial_page" stEmpty =
      (withTrace stEmpty [Action.screenshot "initial_page"], "") ∧
    (executeWizard wShotFail cfgC wizC fvC closedClient).1.success = true ∧
    (executeWizard wTitleFail cfgC wizC fvC closedClient).1.success = true ∧
    (executeWizard wTitleFail cfgC wizC fvC closedClient).1.results =
      some (ExtractedResults.degraded "title failed") :=
  ⟨C9_nonfatal_screenshot_extraction.1 wShotFail cfgC "initial_page" stEmpty
      { ty := "TimeoutError", msg := "screenshot failed" } (by rfl),
   C9_nonfatal_screenshot_extraction.2.1 wShotFail cfgC wizC fvC closedClient
      wShotFail_ok wizC_valid fvC_covers fvC_wellFormed,
   (C9_nonfatal_screenshot_extraction.2.2 wTitleFail cfgC wizC fvC closedClient
      { ty := "TimeoutError", msg := "title failed" } wTitleFail_ok wizC_valid
      fvC_covers fvC_wellFormed (fun n => rfl)).1,
   (C9_nonfatal_screenshot_extraction.2.2 wTitleFail cfgC wizC fvC closedClient
      { ty := "TimeoutError", msg := "title failed" } wTitleFail_ok wizC_valid
      fvC_covers fvC_wellFormed (fun n => rfl)).2⟩
